import Mathlib

/-!
# Verification of the `metar` decoder

A shallow embedding in Lean 4 of the Go package `github.com/vasya4k/metar`
(METAR / TAF aviation weather report decoder), together with theorems
settling a list of specification claims about it.

Conventions of the embedding:
* Go's mutating methods become state-passing Lean functions; every function
  keeps the name of its Go source counterpart where Lean allows it.
* A Go run-time panic (out-of-range index or string slice) is modelled by
  `Option`: `none` means the Go code panics.
* Go `time.Time` values are modelled by `GoDate` (year/month/day/hour/minute,
  UTC only, which is all the decoder uses); `time.Parse` with the layouts the
  source uses is modelled by explicit digit parsers with Go's range checks.
* Go's `regexp` patterns are modelled by a small leftmost-first matching
  engine (`RE`), and each pattern in the source is transcribed as an `RE`
  abstract-syntax term; Go's `regexp` package documents leftmost-first
  ("backtracking order") semantics for submatches, which the engine mirrors.
* Calls to `log.Println` are modelled by accumulating a list of log lines.
* The external field collaborators that the repository imports but whose
  sources are not part of it (visibility, phenomena, runways, conversion)
  are modelled from the spec, each marked `Modelled from the spec:` in its
  doc comment.
-/

/-! ## Go calendar model (`time.Time` as used by the decoder) -/

/-- Model of a Go `time.Time` UTC instant at minute precision
(the decoder never uses seconds). The Go zero time is year 1, January 1. -/
structure GoDate where
  year : Nat
  month : Nat
  day : Nat
  hour : Nat
  minute : Nat
deriving DecidableEq, Repr

/-- Go's zero `time.Time`: 0001-01-01 00:00. -/
def zeroDate : GoDate := ⟨1, 1, 1, 0, 0⟩

/-- `time.Time.IsZero`. -/
def GoDate.isZero (t : GoDate) : Bool := t = zeroDate

/-- Gregorian leap-year rule (as in Go's `time` package). -/
def isLeap (y : Nat) : Bool := (y % 4 == 0 && y % 100 != 0) || y % 400 == 0

/-- Number of days of month `m` of year `y` (Go `daysIn`). -/
def daysInMonth (y m : Nat) : Nat :=
  if m = 2 then (if isLeap y then 29 else 28)
  else if m = 4 ∨ m = 6 ∨ m = 9 ∨ m = 11 then 30
  else 31

/-- `t.Add(time.Hour)`: add one hour with day/month/year carry. -/
def GoDate.addOneHour (t : GoDate) : GoDate :=
  if t.hour + 1 ≤ 23 then { t with hour := t.hour + 1 }
  else if t.day + 1 ≤ daysInMonth t.year t.month then
    { t with hour := 0, day := t.day + 1 }
  else if t.month + 1 ≤ 12 then
    { t with hour := 0, day := 1, month := t.month + 1 }
  else { t with hour := 0, day := 1, month := 1, year := t.year + 1 }

/-- `t.AddDate(0, 1, 0)`: Go normalizes the month into the year and then
lets an overflowing day spill into the following month (`Date` semantics).
For the day values reachable here (≤ 31) one spill step suffices. -/
def GoDate.addOneMonth (t : GoDate) : GoDate :=
  let y := if t.month = 12 then t.year + 1 else t.year
  let m := if t.month = 12 then 1 else t.month + 1
  if t.day ≤ daysInMonth y m then { t with year := y, month := m }
  else
    let d := t.day - daysInMonth y m
    if m = 12 then { t with year := y + 1, month := 1, day := d }
    else { t with year := y, month := m + 1, day := d }

/-- `t.Day()`. -/
def GoDate.dayOf (t : GoDate) : Nat := t.day

/-- The next-month rule shared by `setTimeRange` and `addTempForecast`
(`if x.Day() < t.DateTime.Day() { x = x.AddDate(0, 1, 0) }`). -/
def monthAdvance (refDay : Nat) (t : GoDate) : GoDate :=
  if t.dayOf < refDay then t.addOneMonth else t

/-! ## Digit and string helpers (Go `strconv` / `strings`) -/

/-- Numeric value of a decimal digit character, `none` otherwise. -/
def digitVal (c : Char) : Option Nat :=
  if c.isDigit then some (c.toNat - 48) else none

/-- Parse a list of characters as an all-digits decimal numeral. -/
def digitsToNat : List Char → Option Nat
  | [] => none
  | cs => go cs 0
where
  go : List Char → Nat → Option Nat
    | [], acc => some acc
    | c :: rest, acc =>
      match digitVal c with
      | some d => go rest (acc * 10 + d)
      | none => none

/-- Go `strconv.Atoi` with the error discarded (`v, _ := strconv.Atoi(s)`):
the parsed value on success and `0` on any error, as the source always
ignores the error. -/
def atoiGo (s : String) : Int :=
  match s.data with
  | '-' :: rest =>
    match digitsToNat rest with
    | some n => -(n : Int)
    | none => 0
  | '+' :: rest =>
    match digitsToNat rest with
    | some n => (n : Int)
    | none => 0
  | cs =>
    match digitsToNat cs with
    | some n => (n : Int)
    | none => 0

/-- Go `strings.Split(s, " ")`. Splitting the empty string yields `[""]`. -/
def splitSpace (s : String) : List String :=
  (go s.data []).map (fun cs => String.mk cs.reverse)
where
  go : List Char → List Char → List (List Char)
    | [], acc => [acc]
    | c :: rest, acc =>
      if c = ' ' then acc :: go rest [] else go rest (c :: acc)

/-- Go `strings.HasPrefix` (list-based so the kernel can evaluate it). -/
def hasPrefixGo (s pre : String) : Bool := pre.data.isPrefixOf s.data

/-- Go `strings.Join(l, " ")`. -/
def joinSpace : List String → String
  | [] => ""
  | [s] => s
  | s :: rest => s ++ " " ++ joinSpace rest

/-- Go string slicing `s[n:]`; panics (`none`) when `n > len(s)`.
All strings in the decoder are ASCII, so bytes and characters coincide. -/
def strFrom (s : String) (n : Nat) : Option String :=
  if n ≤ s.length then some (String.mk (s.data.drop n)) else none

/-- Go string slicing `s[a:b]` on an in-range pair (used only where the
source has already validated the length by a regexp match). -/
def strSub (s : String) (a b : Nat) : String :=
  String.mk ((s.data.take b).drop a)

/-! ## Go `time.Parse` for the four layouts the source uses -/

/-- Shared final step of the layout parsers: range-check month, day, hour
and minute exactly as Go's `time.Parse` does ("month/day/hour/minute out of
range"), producing the instant or an error. -/
def mkGoDate (y m d hh mm : Nat) : Option GoDate :=
  if 1 ≤ m ∧ m ≤ 12 ∧ 1 ≤ d ∧ d ≤ daysInMonth y m ∧ hh ≤ 23 ∧ mm ≤ 59 then
    some ⟨y, m, d, hh, mm⟩
  else none

/-- `time.Parse("2006010215", value)`: ten digit characters
(year, month, day, hour), minute 0. Any other shape is a parse error. -/
def goParseYMDH (s : String) : Option GoDate :=
  match s.data with
  | [y1, y2, y3, y4, m1, m2, d1, d2, h1, h2] => do
    let y ← digitsToNat [y1, y2, y3, y4]
    let m ← digitsToNat [m1, m2]
    let d ← digitsToNat [d1, d2]
    let hh ← digitsToNat [h1, h2]
    mkGoDate y m d hh 0
  | _ => none

/-- `time.Parse("200601021504", value)`: twelve digit characters
(year, month, day, hour, minute). -/
def goParseYMDHM (s : String) : Option GoDate :=
  match s.data with
  | [y1, y2, y3, y4, m1, m2, d1, d2, h1, h2, n1, n2] => do
    let y ← digitsToNat [y1, y2, y3, y4]
    let m ← digitsToNat [m1, m2]
    let d ← digitsToNat [d1, d2]
    let hh ← digitsToNat [h1, h2]
    let mm ← digitsToNat [n1, n2]
    mkGoDate y m d hh mm
  | _ => none

/-- `time.Parse("200601021504Z", value)`: twelve digits then a literal `Z`. -/
def goParseYMDHMZ (s : String) : Option GoDate :=
  match s.data with
  | [y1, y2, y3, y4, m1, m2, d1, d2, h1, h2, n1, n2, z] =>
    if z = 'Z' then do
      let y ← digitsToNat [y1, y2, y3, y4]
      let m ← digitsToNat [m1, m2]
      let d ← digitsToNat [d1, d2]
      let hh ← digitsToNat [h1, h2]
      let mm ← digitsToNat [n1, n2]
      mkGoDate y m d hh mm
    else none
  | _ => none

/-- `time.Parse("2006010215Z", value)`: ten digits then a literal `Z`. -/
def goParseYMDHZ (s : String) : Option GoDate :=
  match s.data with
  | [y1, y2, y3, y4, m1, m2, d1, d2, h1, h2, z] =>
    if z = 'Z' then do
      let y ← digitsToNat [y1, y2, y3, y4]
      let m ← digitsToNat [m1, m2]
      let d ← digitsToNat [d1, d2]
      let hh ← digitsToNat [h1, h2]
      mkGoDate y m d hh 0
    else none
  | _ => none

/-- The package-level reference date `CurYearStr` / `CurMonthStr` /
`CurDayStr` (strings, initialised from the wall clock; here an explicit
parameter threaded through every function that reads the globals). -/
structure RefDate where
  curYearStr : String
  curMonthStr : String
  curDayStr : String
deriving DecidableEq, Repr

/-! ## A small regular-expression engine (Go `regexp`, leftmost-first)

Each Go pattern in the source is transcribed to an `RE` term below.
`reRun` enumerates matches at the current position in the priority order a
backtracking engine would try them, which is the submatch semantics Go's
`regexp` package documents (leftmost position, then first in backtracking
order); taking the head therefore models `FindStringSubmatch`. -/

inductive RE where
  | eps : RE
  | cls (p : Char → Bool) : RE
  | lit (s : List Char) : RE
  | seq (a b : RE) : RE
  | alt (a b : RE) : RE
  | opt (a : RE) : RE
  | grp (i : Nat) (a : RE) : RE
  | eos : RE

/-- All matches of `r` at the start of `s`, in priority order.
Each result is the capture list (group index, captured characters)
together with the remaining suffix. -/
def reRun : RE → List Char → List (List (Nat × List Char) × List Char)
  | .eps, s => [([], s)]
  | .cls p, s =>
    match s with
    | [] => []
    | c :: rest => if p c then [([], rest)] else []
  | .lit l, s => if l.isPrefixOf s then [([], s.drop l.length)] else []
  | .seq a b, s =>
    (reRun a s).flatMap fun pr =>
      (reRun b pr.2).map fun qr => (pr.1 ++ qr.1, qr.2)
  | .alt a b, s => reRun a s ++ reRun b s
  | .opt a, s => reRun a s ++ [([], s)]
  | .grp i a, s =>
    (reRun a s).map fun pr =>
      ((i, s.take (s.length - pr.2.length)) :: pr.1, pr.2)
  | .eos, s => if s.isEmpty then [([], s)] else []

/-- First (priority) match of `r` anchored at the start of `s`:
captures plus matched length. -/
def reMatchAt (r : RE) (s : List Char) : Option (List (Nat × List Char) × Nat) :=
  match reRun r s with
  | [] => none
  | pr :: _ => some (pr.1, s.length - pr.2.length)

/-- Leftmost match: try each start position from the left. -/
def reFindFrom (r : RE) : List Char → Nat → Option (Nat × List (Nat × List Char) × Nat)
  | s, pos =>
    match reMatchAt r s with
    | some (caps, len) => some (pos, caps, len)
    | none =>
      match s with
      | [] => none
      | _ :: rest => reFindFrom r rest (pos + 1)

/-- Text of capture group `i` (empty when the group did not take part). -/
def capsGet (caps : List (Nat × List Char)) (i : Nat) : String :=
  match caps.find? (fun p => p.1 = i) with
  | some p => String.mk p.2
  | none => ""

/-- Go `Regexp.FindStringSubmatch`: `none` models the `nil` result; a
`some` result is the list `[whole match, group 1, …, group ng]`.
`anch` records whether the Go pattern starts with `^` (in which case only
position 0 can match). -/
def findStringSubmatch (anch : Bool) (r : RE) (ng : Nat) (s : String) :
    Option (List String) :=
  let cs := s.data
  let found :=
    if anch then (reMatchAt r cs).map fun pr => (0, pr)
    else reFindFrom r cs 0
  match found with
  | none => none
  | some (pos, caps, len) =>
    some (String.mk ((cs.drop pos).take len) ::
      (List.range ng).map fun i => capsGet caps (i + 1))

/-- Go `regexp.MatchString` for a pattern anchored with `^`. -/
def reMatchStringA (r : RE) (s : String) : Bool :=
  (reMatchAt r s.data).isSome

/-- `\d` -/
def dC : RE := .cls Char.isDigit
/-- `\w` (Go: ASCII word character). -/
def wC : RE := .cls fun c => c.isAlphanum || c = '_'
/-- `\s` (Go: `[\t\n\f\r ]`). -/
def sC : RE := .cls fun c => c = ' ' || c = '\t' || c = '\n' || c = '\x0c' || c = '\r'
/-- Literal string. -/
def reLit (s : String) : RE := .lit s.data
/-- `{n}` bounded repetition, unrolled. -/
def reps : Nat → RE → RE
  | 0, _ => .eps
  | n + 1, a => .seq a (reps n a)

/-- Sequence of a list of pieces. -/
def reSeqL : List RE → RE
  | [] => .eps
  | [r] => r
  | r :: rest => .seq r (reSeqL rest)

/-- METAR header pattern of `NewMETAR`:
`^(?P<type>(METAR|SPECI)\s)?(?P<cor>COR\s)?(?P<station>\w{4})\s(?P<time>\d{6}Z)(?P<auto>\sAUTO)?(?P<nil>\sNIL)?`.
Named groups carry their Go submatch indices (the inner unnamed group is
index 2 and is never read). -/
def metarHeaderRE : RE :=
  reSeqL [
    .opt (.grp 1 (.seq (.alt (reLit "METAR") (reLit "SPECI")) sC)),
    .opt (.grp 3 (.seq (reLit "COR") sC)),
    .grp 4 (reps 4 wC),
    sC,
    .grp 5 (.seq (reps 6 dC) (reLit "Z")),
    .opt (.grp 6 (.seq sC (reLit "AUTO"))),
    .opt (.grp 7 (.seq sC (reLit "NIL")))]

/-- `FindStringSubmatchMap` for the METAR header: named captures, or the
empty map when the pattern does not match. -/
def metarHeaderMap (s : String) : List (String × String) :=
  match findStringSubmatch true metarHeaderRE 7 s with
  | none => []
  | some ms =>
    [("type", ms.getD 1 ""), ("cor", ms.getD 3 ""), ("station", ms.getD 4 ""),
     ("time", ms.getD 5 ""), ("auto", ms.getD 6 ""), ("nil", ms.getD 7 "")]

/-- TAF header pattern of `NewTAF`:
`^(?P<taf>TAF\s)?(?P<cor>COR\s)?(?P<amd>AMD\s)?(?P<station>\w{4})\s(?P<time>\d{6}Z)(?P<nil>\sNIL)?(\s(?P<from>\d{4})/(?P<to>\d{4}))?(?P<cnl>\sCNL)?`. -/
def tafHeaderRE : RE :=
  reSeqL [
    .opt (.grp 1 (.seq (reLit "TAF") sC)),
    .opt (.grp 2 (.seq (reLit "COR") sC)),
    .opt (.grp 3 (.seq (reLit "AMD") sC)),
    .grp 4 (reps 4 wC),
    sC,
    .grp 5 (.seq (reps 6 dC) (reLit "Z")),
    .opt (.grp 6 (.seq sC (reLit "NIL"))),
    .opt (.grp 7 (reSeqL [sC, .grp 8 (reps 4 dC), reLit "/", .grp 9 (reps 4 dC)])),
    .opt (.grp 10 (.seq sC (reLit "CNL")))]

/-- `FindStringSubmatchMap` for the TAF header. -/
def tafHeaderMap (s : String) : List (String × String) :=
  match findStringSubmatch true tafHeaderRE 10 s with
  | none => []
  | some ms =>
    [("taf", ms.getD 1 ""), ("cor", ms.getD 2 ""), ("amd", ms.getD 3 ""),
     ("station", ms.getD 4 ""), ("time", ms.getD 5 ""), ("nil", ms.getD 6 ""),
     ("from", ms.getD 8 ""), ("to", ms.getD 9 ""), ("cnl", ms.getD 10 "")]

/-- Zero-value lookup in a capture map (a missing key reads as `""`,
like a Go map of strings). -/
def mapGet (m : List (String × String)) (k : String) : String :=
  match m.find? (fun p => p.1 = k) with
  | some p => p.2
  | none => ""

/-- Trend date/time pattern of `setDateTime`: `^(\d{4})/(\d{4})`. -/
def trendDateTimeRE : RE :=
  reSeqL [.grp 1 (reps 4 dC), reLit "/", .grp 2 (reps 4 dC)]

/-- Temperature/dew-point pattern of `setTemperature`:
`^(M)?(\d{2})/(M)?(\d{2})$`. -/
def temperatureRE : RE :=
  reSeqL [.opt (.grp 1 (reLit "M")), .grp 2 (reps 2 dC), reLit "/",
    .opt (.grp 3 (reLit "M")), .grp 4 (reps 2 dC), .eos]

/-- Altimeter pattern of `setAltimetr`: `([Q|A])(\d{4})` (unanchored; the
character class contains the literal `|` exactly as written in the source). -/
def altimeterRE : RE :=
  .seq (.grp 1 (.cls fun c => c = 'Q' || c = '|' || c = 'A')) (.grp 2 (reps 4 dC))

/-- Vertical-visibility pattern of `parseVerticalVisibility` (METAR):
`VV(\d{3}|///)` (unanchored). -/
def vvMetarRE : RE :=
  .seq (reLit "VV") (.grp 1 (.alt (reps 3 dC) (reLit "///")))

/-- Vertical-visibility pattern of `TAFMessage.setVerticalVisibility`:
`VV(\d{3})` (unanchored). -/
def vvTafRE : RE := .seq (reLit "VV") (.grp 1 (reps 3 dC))

/-- Wind-shear pattern of `appendWindShears`:
`^WS\s((R\d{2}[LCR]?)|(ALL\sRWY))`. -/
def windShearRE : RE :=
  reSeqL [reLit "WS", sC,
    .grp 1 (.alt
      (.grp 2 (reSeqL [reLit "R", reps 2 dC,
        .opt (.cls fun c => c = 'L' || c = 'C' || c = 'R')]))
      (.grp 3 (reSeqL [reLit "ALL", sC, reLit "RWY"])))]

/-- Cloud pattern of `clouds.ParseCloud`:
`^(FEW|SCT|BKN|OVC|NSC|SKC|NCD|CLR|///)(\d{3}|///)?(TCU|CB|///)?`. -/
def cloudRE : RE :=
  reSeqL [
    .grp 1 (.alt (reLit "FEW") (.alt (reLit "SCT") (.alt (reLit "BKN")
      (.alt (reLit "OVC") (.alt (reLit "NSC") (.alt (reLit "SKC")
      (.alt (reLit "NCD") (.alt (reLit "CLR") (reLit "///"))))))))),
    .opt (.grp 2 (.alt (reps 3 dC) (reLit "///"))),
    .opt (.grp 3 (.alt (reLit "TCU") (.alt (reLit "CB") (reLit "///"))))]

/-- Wind pattern of `wind.ParseWind`:
`^(\d{3}|VRB|///)(P)?(\d{2}|//)(G\d\d)?(MPS|KT|KPH|KMH)\s?(\d{3}V\d{3})?`. -/
def windRE : RE :=
  reSeqL [
    .grp 1 (.alt (reps 3 dC) (.alt (reLit "VRB") (reLit "///"))),
    .opt (.grp 2 (reLit "P")),
    .grp 3 (.alt (reps 2 dC) (reLit "//")),
    .opt (.grp 4 (.seq (reLit "G") (reps 2 dC))),
    .grp 5 (.alt (reLit "MPS") (.alt (reLit "KT") (.alt (reLit "KPH") (reLit "KMH")))),
    .opt sC,
    .opt (.grp 6 (reSeqL [reps 3 dC, reLit "V", reps 3 dC]))]

/-- Wind-on-runway pattern of `parseRemarks`:
`^(R\d{2}[LCR]?)/((\d{3})?(VRB)?(\d{2})?(G\d\d)?(MPS|KT))`. -/
def rmkWindRE : RE :=
  reSeqL [
    .grp 1 (reSeqL [reLit "R", reps 2 dC,
      .opt (.cls fun c => c = 'L' || c = 'C' || c = 'R')]),
    reLit "/",
    .grp 2 (reSeqL [
      .opt (.grp 3 (reps 3 dC)),
      .opt (.grp 4 (reLit "VRB")),
      .opt (.grp 5 (reps 2 dC)),
      .opt (.grp 6 (.seq (reLit "G") (reps 2 dC))),
      .grp 7 (.alt (reLit "MPS") (reLit "KT"))])]

/-- Temperature-forecast pattern of `addTempForecast`:
`^T(X|N)(M)?(\d\d)\/(\d{4}Z)`. -/
def tempForecastRE : RE :=
  reSeqL [reLit "T",
    .grp 1 (.alt (reLit "X") (reLit "N")),
    .opt (.grp 2 (reLit "M")),
    .grp 3 (reps 2 dC),
    reLit "/",
    .grp 4 (.seq (reps 4 dC) (reLit "Z"))]

/-! ## `wind` package (src/wind/wind.go) -/

/-- `wind.Wind` — wind on surface representation. Go zero values as
defaults. -/
structure Wind where
  WindDirection : Int := 0
  Speed : Int := 0
  GustsSpeed : Int := 0
  Variable : Bool := false
  VariableFrom : Int := 0
  VariableTo : Int := 0
  Above50MPS : Bool := false
  SpeedNotDefined : Bool := false
  DirectionNotDefined : Bool := false
  unit : String := ""
deriving DecidableEq, Repr

/-- `wind.Wind.ParseWind` — identify and parse the representation of wind
in the string; returns the updated receiver and the number of tokens used
(0 when the pattern does not match, in which case nothing is written). -/
def Wind.ParseWind (w : Wind) (token : String) : Wind × Nat :=
  match findStringSubmatch true windRE 6 token with
  | none => (w, 0)
  | some ms =>
    let m1 := ms.getD 1 ""
    let m2 := ms.getD 2 ""
    let m3 := ms.getD 3 ""
    let m4 := ms.getD 4 ""
    let m5 := ms.getD 5 ""
    let m6 := ms.getD 6 ""
    let w := { w with Variable := m1 = "VRB", DirectionNotDefined := m1 = "///" }
    let w := if ¬(m1 = "VRB") ∧ ¬(m1 = "///") then
        { w with WindDirection := atoiGo m1 } else w
    let w := { w with Above50MPS := m2 ≠ "", SpeedNotDefined := m3 = "//" }
    let w := if m3 ≠ "" ∧ m3 ≠ "//" then { w with Speed := atoiGo m3 } else w
    let w := if m4 ≠ "" then { w with GustsSpeed := atoiGo (String.mk (m4.data.drop 1)) } else w
    let w := { w with unit := m5 }
    if m6 ≠ "" then
      ({ w with VariableFrom := atoiGo (strSub m6 0 3),
                VariableTo := atoiGo (String.mk (m6.data.drop 4)) }, 2)
    else (w, 1)

/-! ## `clouds` package (src/clouds/clouds.go) -/

/-- `clouds.Cloud` (`Type` is renamed `ctype`: `Type` is reserved in Lean). -/
structure Cloud where
  ctype : String := ""
  Height : Int := 0
  HeightNotDefined : Bool := false
  Cumulonimbus : Bool := false
  ToweringCumulus : Bool := false
  CBNotDefined : Bool := false
deriving DecidableEq, Repr

/-- `clouds.Clouds`. -/
abbrev Clouds := List Cloud

/-- `clouds.ParseCloud`. -/
def ParseCloud (token : String) : Option Cloud :=
  match findStringSubmatch true cloudRE 3 token with
  | none => none
  | some ms =>
    let m1 := ms.getD 1 ""
    let m2 := ms.getD 2 ""
    let m3 := ms.getD 3 ""
    let cl : Cloud := { ctype := m1 }
    if m1 = "NSC" ∨ m1 = "NCD" ∨ m1 = "CLR" ∨ m1 = "SKC" then some cl
    else
      let cl := if m2 ≠ "///" ∧ m2 ≠ "" then { cl with Height := atoiGo m2 }
        else { cl with HeightNotDefined := true }
      some { cl with CBNotDefined := m3 = "///", Cumulonimbus := m3 = "CB",
                     ToweringCumulus := m3 = "TCU" }

/-- `clouds.Clouds.AppendCloud`. -/
def Clouds.AppendCloud (m : Clouds) (token : String) : Clouds × Bool :=
  match ParseCloud token with
  | some cl => (m ++ [cl], true)
  | none => (m, false)

/-! ## External field collaborators (packages imported by the repository
whose sources are not under src/) -/

/-- Modelled from the spec: the `visibility` package is not in the
repository sources. Per §6 it exposes a try-parse over the leading tokens
returning the count consumed, and per §4.3/Example 3 a plain four-digit
metre group (such as "0500" or "9999") is a horizontal-visibility token.
The model consumes one token when it consists of exactly four digits. -/
structure Visibility where
  Distance : Int := 0
deriving DecidableEq, Repr

/-- Modelled from the spec: `visibility.ParseVisibility` (see `Visibility`). -/
def Visibility.ParseVisibility (v : Visibility) (tokens : List String) :
    Visibility × Nat :=
  match tokens with
  | [] => (v, 0)
  | tok :: _ =>
    if tok.length = 4 ∧ tok.data.all Char.isDigit then
      ({ Distance := atoiGo tok }, 1)
    else (v, 0)

/-- Modelled from the spec: one present-weather phenomenon (the `phenomena`
package is not in the repository sources); field shape taken from the
repository's trend tests (`Vicinity`, `Abbreviation`, `Intensity`). -/
structure Phenomenon where
  Vicinity : Bool := false
  Abbreviation : String := ""
  Intensity : String := ""
deriving DecidableEq, Repr

/-- `phenomena.Phenomena`. -/
abbrev Phenomena := List Phenomenon

/-- Modelled from the spec: the ICAO present-weather abbreviations the
collaborator recognizes (including the NSW sentinel named in §4.3). -/
def phenomenaAbbrs : List String :=
  ["DZ", "RA", "SN", "SG", "PL", "GR", "GS", "FG", "BR", "HZ", "FU", "DU",
   "SA", "TS", "SQ", "PO", "FC", "DS", "SS", "VA", "SH", "SHRA", "SHSN",
   "SHGR", "TSRA", "TSSN", "TSGR", "FZRA", "FZDZ", "FZFG", "NSW"]

/-- Modelled from the spec: `phenomena.Phenomena.AppendPhenomena` — a token
is a phenomenon when an optional `+`/`-` intensity mark and an optional
`VC` vicinity mark are followed by a recognized abbreviation (Example 3:
"FG"; the trend tests also use "-SHRA" and "BR"). -/
def Phenomena.AppendPhenomena (p : Phenomena) (token : String) : Phenomena × Bool :=
  let (intensity, rest) :=
    if hasPrefixGo token "+" then ("+", String.mk (token.data.drop 1))
    else if hasPrefixGo token "-" then ("-", String.mk (token.data.drop 1))
    else ("", token)
  let (vic, core) :=
    if hasPrefixGo rest "VC" then (true, String.mk (rest.data.drop 2))
    else (false, rest)
  if phenomenaAbbrs.contains core then
    (p ++ [{ Vicinity := vic, Abbreviation := core, Intensity := intensity }], true)
  else (p, false)

/-- Modelled from the spec: `phenomena.Phenomena.AppendRecentPhenomena` —
recent weather is a `RE`-marked phenomenon token (§4.3 "recent weather,
repeatable"). -/
def Phenomena.AppendRecentPhenomena (p : Phenomena) (token : String) :
    Phenomena × Bool :=
  if hasPrefixGo token "RE" then
    let core := String.mk (token.data.drop 2)
    if phenomenaAbbrs.contains core then
      (p ++ [{ Abbreviation := core }], true)
    else (p, false)
  else (p, false)

/-- Modelled from the spec: `runways.VisualRange` (runway visual range;
package not in the repository sources, §4.3 group 4). -/
structure VisualRange where
  Designator : String := ""
  Distance : Int := 0
deriving DecidableEq, Repr

/-- Modelled from the spec: `runways.ParseVisualRange` — an RVR token is a
runway designator `R##[LCR]?`, a slash, then an optional `P`/`M` bound mark
and a four-digit distance with an optional trend letter. -/
def ParseVisualRange (token : String) : Option VisualRange :=
  match token.data with
  | 'R' :: d1 :: d2 :: rest =>
    if d1.isDigit ∧ d2.isDigit then
      let rest :=
        match rest with
        | c :: r => if c = 'L' ∨ c = 'C' ∨ c = 'R' then r else rest
        | [] => rest
      match rest with
      | '/' :: r =>
        let r := match r with
          | c :: r2 => if c = 'P' ∨ c = 'M' then r2 else r
          | [] => r
        match r with
        | a :: b :: c :: d :: tail =>
          if a.isDigit ∧ b.isDigit ∧ c.isDigit ∧ d.isDigit ∧
              (tail = [] ∨ tail = ['U'] ∨ tail = ['D'] ∨ tail = ['N']) then
            some { Designator := String.mk ['R', d1, d2],
                   Distance := atoiGo (String.mk [a, b, c, d]) }
          else none
        | _ => none
      | _ => none
    else none
  | _ => none

/-- Modelled from the spec: `runways.State` (runway state group; package
not in the repository sources, §4.3 "runway state, repeatable, including a
fixed sentinel token meaning runway closed due to snow"). -/
structure RwyState where
  Designator : String := ""
  SNOCLO : Bool := false
  Digits : String := ""
deriving DecidableEq, Repr

/-- Modelled from the spec: `runways.ParseState` — a runway-state token is
`R##[LCR]?/` followed by six characters that are each a digit or `/`. -/
def ParseState (token : String) : Option RwyState :=
  match token.data with
  | 'R' :: d1 :: d2 :: rest =>
    if d1.isDigit ∧ d2.isDigit then
      let rest :=
        match rest with
        | c :: r => if c = 'L' ∨ c = 'C' ∨ c = 'R' then r else rest
        | [] => rest
      match rest with
      | '/' :: r =>
        if r.length = 6 ∧ r.all (fun c => c.isDigit ∨ c = '/') then
          some { Designator := String.mk ['R', d1, d2], Digits := String.mk r }
        else none
      | _ => none
    else none
  | _ => none

/-- `runways.RunwayDesignator` (shape from its use in `appendWindShears`:
a name plus an all-runways flag). -/
structure RunwayDesignator where
  Designator : String := ""
  AllRunways : Bool := false
deriving DecidableEq, Repr

/-- `runways.NewRD` — designator from its token text. -/
def NewRD (s : String) : RunwayDesignator := { Designator := s }

/-- Truncation of a rational toward zero, Go's `int(float64)` conversion. -/
def goInt (x : Rat) : Int := if 0 ≤ x then x.floor else -((-x).floor)

/-- Modelled from the spec: `conversion.InHgTohPa` (conversion package not
in the repository sources; §4.3 "cross-unit conversion uses fixed physical
constants") — one inch of mercury is 33.8639 hPa. -/
def InHgTohPa (x : Rat) : Rat := x * (338639 / 10000)

/-! ## Shared body/trend grammar walk (`decodeWeatherCondition`) -/

/-- Go token access `tokens[count]`: `none` models the index-out-of-range
panic. -/
def tokenAt (tokens : List String) (count : Nat) : Option String :=
  if count < tokens.length then some (tokens.getD count "") else none

/-- Fuel-driven engine of `wcRepeat` (structural recursion so that the
kernel can evaluate it; the fuel passed by `wcRepeat` exceeds the remaining
token count, and the loop advances the cursor every iteration, so the
fuel-exhausted branch is never reached). -/
def wcRepeatGo {α : Type} (step : α → String → α × Bool)
    (tokens : List String) : Nat → α → Nat → α × Nat
  | 0, t, count => (t, count)
  | fuel + 1, t, count =>
    if count < tokens.length then
      let r := step t (tokens.getD count "")
      if r.2 then wcRepeatGo step tokens fuel r.1 (count + 1) else (r.1, count)
    else (t, count)

/-- The Go loop shape `for count < len(tokens) && step(tokens[count]) { count++ }`
over a state-updating repeatable field parser. -/
def wcRepeat {α : Type} (step : α → String → α × Bool) (t : α)
    (tokens : List String) (count : Nat) : α × Nat :=
  wcRepeatGo step tokens (tokens.length + 1 - count) t count

theorem wcRepeatGo_mono {α : Type} (step : α → String → α × Bool)
    (tokens : List String) (fuel : Nat) :
    ∀ (t : α) (count : Nat), count ≤ (wcRepeatGo step tokens fuel t count).2 := by
  induction fuel with
  | zero => intro t count; exact Nat.le_refl count
  | succ fuel ih =>
    intro t count
    rw [wcRepeatGo]
    split
    next h =>
      dsimp only
      split
      next hr =>
        have := ih (step t (tokens.getD count "")).1 (count + 1)
        omega
      next hr => exact Nat.le_refl count
    next h => exact Nat.le_refl count

theorem wcRepeat_mono {α : Type} (step : α → String → α × Bool) (t : α)
    (tokens : List String) (count : Nat) :
    count ≤ (wcRepeat step t tokens count).2 :=
  wcRepeatGo_mono step tokens (tokens.length + 1 - count) t count

/-- The `weatherCondition` capability contract (Go interface with exactly
four operations), as a record of operations. -/
structure WCOps (α : Type) where
  parseVisibility : α → List String → α × Nat
  appendPhenomena : α → String → α × Bool
  setVerticalVisibility : α → String → α × Bool
  appendCloud : α → String → α × Bool

/-- Horizontal-visibility step of `decodeWeatherCondition`
(`if count < len(tokens) { count += t.ParseVisibility(tokens[count:]) }`). -/
def dwcVis {α : Type} (ops : WCOps α) (t : α) (count : Nat)
    (tokens : List String) : α × Nat :=
  if count < tokens.length then
    let r := ops.parseVisibility t (tokens.drop count)
    (r.1, count + r.2)
  else (t, count)

/-- Vertical-visibility step of `decodeWeatherCondition`. -/
def dwcVV {α : Type} (ops : WCOps α) (t : α) (count : Nat)
    (tokens : List String) : α × Nat :=
  if count < tokens.length then
    let r := ops.setVerticalVisibility t (tokens.getD count "")
    if r.2 then (r.1, count + 1) else (r.1, count)
  else (t, count)

/-- `decodeWeatherCondition` — decoder for not-CAVOK conditions in TAF
messages and trends; returns the new current position. -/
def decodeWeatherCondition {α : Type} (ops : WCOps α) (t : α) (count : Nat)
    (tokens : List String) : α × Nat :=
  let r0 := dwcVis ops t count tokens
  let r1 := wcRepeat ops.appendPhenomena r0.1 tokens r0.2
  let r2 := dwcVV ops r1.1 r1.2 tokens
  wcRepeat ops.appendCloud r2.1 tokens r2.2

theorem dwcVis_mono {α : Type} (ops : WCOps α) (t : α) (count : Nat)
    (tokens : List String) : count ≤ (dwcVis ops t count tokens).2 := by
  unfold dwcVis
  split <;> simp

theorem dwcVV_mono {α : Type} (ops : WCOps α) (t : α) (count : Nat)
    (tokens : List String) : count ≤ (dwcVV ops t count tokens).2 := by
  unfold dwcVV
  split
  · dsimp only
    split <;> simp
  · simp

theorem decodeWeatherCondition_mono {α : Type} (ops : WCOps α) (t : α)
    (count : Nat) (tokens : List String) :
    count ≤ (decodeWeatherCondition ops t count tokens).2 := by
  unfold decodeWeatherCondition
  dsimp only
  have h0 := dwcVis_mono ops t count tokens
  have h1 := wcRepeat_mono ops.appendPhenomena (dwcVis ops t count tokens).1
    tokens (dwcVis ops t count tokens).2
  have h2 := dwcVV_mono ops
    (wcRepeat ops.appendPhenomena (dwcVis ops t count tokens).1 tokens
      (dwcVis ops t count tokens).2).1
    (wcRepeat ops.appendPhenomena (dwcVis ops t count tokens).1 tokens
      (dwcVis ops t count tokens).2).2 tokens
  have h3 := wcRepeat_mono ops.appendCloud
    (dwcVV ops
      (wcRepeat ops.appendPhenomena (dwcVis ops t count tokens).1 tokens
        (dwcVis ops t count tokens).2).1
      (wcRepeat ops.appendPhenomena (dwcVis ops t count tokens).1 tokens
        (dwcVis ops t count tokens).2).2 tokens).1
    tokens
    (dwcVV ops
      (wcRepeat ops.appendPhenomena (dwcVis ops t count tokens).1 tokens
        (dwcVis ops t count tokens).2).1
      (wcRepeat ops.appendPhenomena (dwcVis ops t count tokens).1 tokens
        (dwcVis ops t count tokens).2).2 tokens).2
  omega

/-! ## Trend decoding (second file of src/metar.go) -/

/-- `BECMG` — weather development (BECoMinG). -/
def BECMG : String := "BECMG"
/-- `TEMPO` — TEMPOrary existing weather phenomena. -/
def TEMPO : String := "TEMPO"
/-- `FM` — FroM (in TAF reports). -/
def FM : String := "FM"

/-- Alias for the `FM` keyword, used where the `Trend.FM` field shadows
the constant's name. -/
def FMkw : String := FM

/-- `Trend` — forecast of changes for a specified period (`Type` is
renamed `ttype`: `Type` is reserved in Lean). Go zero values as defaults. -/
structure Trend where
  ttype : String := ""
  Probability : Int := 0
  FM : GoDate := zeroDate
  TL : GoDate := zeroDate
  AT : GoDate := zeroDate
  Visibility : Visibility := {}
  VerticalVisibility : Int := 0
  VerticalVisibilityNotDefined : Bool := false
  Wind : Wind := {}
  CAVOK : Bool := false
  Phenomena : Phenomena := []
  Clouds : Clouds := []
deriving DecidableEq, Repr

/-- `parseTime` — parses the transmitted string (DDHH), taking into account
that the number of hours can be 24. Result: the instant and the Go
`err == nil` flag; `none` models the panic of `input[2:]` on a short string
(unreachable from the source's call site, which passes a `\d{4}` match). -/
def parseTime (rt : RefDate) (input : String) : Option (GoDate × Bool) :=
  match strFrom input 2 with
  | none => none
  | some suffix =>
    if suffix = "24" then
      let inputString := strSub input 0 2 ++ "23"
      let parsed := goParseYMDH (rt.curYearStr ++ rt.curMonthStr ++ inputString)
      some ((parsed.getD zeroDate).addOneHour, parsed.isSome)
    else
      let parsed := goParseYMDH (rt.curYearStr ++ rt.curMonthStr ++ input)
      some (parsed.getD zeroDate, parsed.isSome)

/-- `Trend.setDateTime` — checks the string against the forecast DDHH/DDHH
template and sets from/till on success. Result: updated trend, logged
parse-error lines, and the Go return flag. -/
def Trend.setDateTime (rt : RefDate) (trend : Trend) (input : String) :
    Option (Trend × List String × Bool) :=
  match findStringSubmatch true trendDateTimeRE 2 input with
  | none => some (trend, [], false)
  | some ms => do
    let m1 := ms.getD 1 ""
    let m2 := ms.getD 2 ""
    let r1 ← parseTime rt m1
    let (trend, logs1, ok1) :=
      if r1.2 then ({ trend with FM := r1.1 }, ([] : List String), true)
      else (trend, ["parseTime error: " ++ m1], false)
    let r2 ← parseTime rt m2
    let (trend, logs2, ok2) :=
      if r2.2 then ({ trend with TL := r2.1 }, ([] : List String), true)
      else (trend, ["parseTime error: " ++ m2], false)
    some (trend, logs1 ++ logs2, ok1 && ok2)

/-- `Trend.setProbability` — only `PROB30` / `PROB40` are allowed; both
force the trend type to TEMPO. -/
def Trend.setProbability (trend : Trend) (input : String) : Trend × Bool :=
  if input = "PROB30" then
    ({ trend with Probability := 30, ttype := TEMPO }, true)
  else if input = "PROB40" then
    ({ trend with ttype := TEMPO, Probability := 40 }, true)
  else (trend, false)

/-- `Trend.setPeriodOfChanges` — AT / FM / TL hour:minute times relative to
the reference day; a failed prefix parse logs and falls through to the next
prefix check. -/
def Trend.setPeriodOfChanges (rt : RefDate) (trend : Trend) (input : String) :
    Trend × List String × Bool :=
  let base := rt.curYearStr ++ rt.curMonthStr ++ rt.curDayStr
  let suffix := String.mk (input.data.drop 2)
  let tlCheck : List String → Trend × List String × Bool := fun logs =>
    if hasPrefixGo input "TL" then
      let pr :=
        if suffix = "2400" then (goParseYMDHM (base ++ "2300")).map GoDate.addOneHour
        else goParseYMDHM (base ++ suffix)
      match pr with
      | some t => ({ trend with TL := t }, logs, true)
      | none => (trend, logs ++ ["time parse error TL: " ++ input], false)
    else (trend, logs, false)
  let fmCheck : List String → Trend × List String × Bool := fun logs =>
    if hasPrefixGo input "FM" then
      match goParseYMDHM (base ++ suffix) with
      | some t => ({ trend with FM := t }, logs, true)
      | none => tlCheck (logs ++ ["time parse error FM: " ++ input])
    else tlCheck logs
  if hasPrefixGo input "AT" then
    match goParseYMDHM (base ++ suffix) with
    | some t => ({ trend with AT := t }, [], true)
    | none => fmCheck ["time parse error AT: " ++ input]
  else fmCheck []

/-- `Trend.setTypeOfTrend` — TEMPO / BECMG keyword, or an `FM`+time token
(type FM with the embedded from-instant, zero instant on a parse error). -/
def Trend.setTypeOfTrend (rt : RefDate) (trend : Trend) (input : String) :
    Trend × Bool :=
  if input = TEMPO ∨ input = BECMG then ({ trend with ttype := input }, true)
  else if hasPrefixGo input "FM" then
    let t := (goParseYMDHM (rt.curYearStr ++ rt.curMonthStr ++
      String.mk (input.data.drop 2))).getD zeroDate
    ({ trend with ttype := FMkw, FM := t }, true)
  else (trend, false)

/-- `parseVerticalVisibility` (shared helper in src/metar.go): the raw
3-digit code times 100, or the not-defined flag. -/
def parseVerticalVisibility (input : String) : Option (Int × Bool) :=
  match findStringSubmatch false vvMetarRE 1 input with
  | none => none
  | some ms =>
    let m1 := ms.getD 1 ""
    if m1 ≠ "///" then some (atoiGo m1 * 100, false) else some (0, true)

/-- `Trend.setVerticalVisibility`. -/
def Trend.setVerticalVisibility (trend : Trend) (input : String) : Trend × Bool :=
  match parseVerticalVisibility input with
  | some r =>
    ({ trend with VerticalVisibility := r.1, VerticalVisibilityNotDefined := r.2 }, true)
  | none => (trend, false)

/-- The `weatherCondition` capability instance of `Trend`. -/
def trendWCOps : WCOps Trend where
  parseVisibility t toks :=
    let r := t.Visibility.ParseVisibility toks
    ({ t with Visibility := r.1 }, r.2)
  appendPhenomena t tok :=
    let r := t.Phenomena.AppendPhenomena tok
    ({ t with Phenomena := r.1 }, r.2)
  setVerticalVisibility := Trend.setVerticalVisibility
  appendCloud t tok :=
    let r := t.Clouds.AppendCloud tok
    ({ t with Clouds := r.1 }, r.2)

/-- Fuel-driven engine of `periodLoop` (fuel never exhausts: see
`wcRepeatGo`). -/
def periodLoopGo (rt : RefDate) (tokens : List String) :
    Nat → Trend → List String → Nat → Option (Trend × List String × Nat)
  | 0, _, _, _ => none
  | fuel + 1, trend, logs, count =>
    if count < tokens.length then
      let r := Trend.setPeriodOfChanges rt trend (tokens.getD count "")
      if r.2.2 then periodLoopGo rt tokens fuel r.1 (logs ++ r.2.1) (count + 1)
      else some (r.1, logs ++ r.2.1, count)
    else none

/-- The `for trend.setPeriodOfChanges(tokens[count]) { count++ }` loop of
`parseTrendData`; the loop condition indexes the token list unguarded, so
running off the end is a panic (`none`). -/
def periodLoop (rt : RefDate) (tokens : List String) (trend : Trend)
    (logs : List String) (count : Nat) : Option (Trend × List String × Nat) :=
  periodLoopGo rt tokens (tokens.length + 1 - count) trend logs count

theorem periodLoopGo_mono (rt : RefDate) (tokens : List String) (fuel : Nat) :
    ∀ (trend : Trend) (logs : List String) (count : Nat)
      (res : Trend × List String × Nat),
      periodLoopGo rt tokens fuel trend logs count = some res →
      count ≤ res.2.2 := by
  induction fuel with
  | zero => intro trend logs count res h; cases h
  | succ fuel ih =>
    intro trend logs count res h
    rw [periodLoopGo] at h
    split at h
    next hlt =>
      dsimp only at h
      split at h
      next hr =>
        have := ih _ _ (count + 1) res h
        omega
      next hr =>
        cases h
        exact Nat.le_refl count
    next hlt => cases h

theorem periodLoop_mono (rt : RefDate) (tokens : List String) (trend : Trend)
    (logs : List String) (count : Nat) (res : Trend × List String × Nat)
    (h : periodLoop rt tokens trend logs count = some res) :
    count ≤ res.2.2 :=
  periodLoopGo_mono rt tokens (tokens.length + 1 - count) trend logs count res h

/-- Result of one iteration of the `parseTrendData` loop body:
continue (the `count++` of the `for` still to come) or the early `return`
taken on CAVOK. -/
inductive TrendStepRes where
  | cont (trend : Trend) (logs : List String) (count : Nat)
  | done (trend : Trend) (logs : List String)
deriving Repr

/-- Tail of one `parseTrendData` loop-body iteration, from the wind group
on (`count += trend.ParseWind(tokens[count])`, the CAVOK early return, and
the shared weather-condition walk). -/
def trendStepWind (rt : RefDate) (tokens : List String) (trend : Trend)
    (logs : List String) (count : Nat) : Option TrendStepRes :=
  match tokenAt tokens count with
  | none => none
  | some t4 =>
    let wr := trend.Wind.ParseWind t4
    let trend := { trend with Wind := wr.1 }
    let count := count + wr.2
    if count < tokens.length ∧ tokens.getD count "" = "CAVOK" then
      some (.done { trend with CAVOK := true } logs)
    else
      let r := decodeWeatherCondition trendWCOps trend count tokens
      some (.cont r.1 logs r.2)

/-- Middle of one `parseTrendData` loop-body iteration: the DDHH/DDHH
date/time group. -/
def trendStepDate (rt : RefDate) (tokens : List String) (trend : Trend)
    (logs : List String) (count : Nat) : Option TrendStepRes :=
  match tokenAt tokens count with
  | none => none
  | some t3 =>
    match Trend.setDateTime rt trend t3 with
    | none => none
    | some dt =>
      trendStepWind rt tokens dt.1 (logs ++ dt.2.1)
        (if dt.2.2 then count + 1 else count)

/-- One iteration of the body of `parseTrendData`'s loop (`none` = panic). -/
def trendStep (rt : RefDate) (tokens : List String) (trend : Trend)
    (logs : List String) (count : Nat) : Option TrendStepRes :=
  match tokenAt tokens count with
  | none => none
  | some t0 =>
    let pr := trend.setProbability t0
    let count := if pr.2 then count + 1 else count
    match tokenAt tokens count with
    | none => none
    | some t1 =>
      let ty := Trend.setTypeOfTrend rt pr.1 t1
      let count := if ty.2 then count + 1 else count
      match periodLoop rt tokens ty.1 logs count with
      | none => none
      | some pl => trendStepDate rt tokens pl.1 pl.2.1 pl.2.2

theorem trendStepWind_mono (rt : RefDate) (tokens : List String)
    (trend : Trend) (logs : List String) (count : Nat) (t : Trend)
    (l : List String) (c : Nat)
    (h : trendStepWind rt tokens trend logs count = some (.cont t l c)) :
    count ≤ c := by
  unfold trendStepWind at h
  split at h
  · cases h
  next t4 heq =>
    dsimp only at h
    split at h
    · cases h
    next hcond =>
      cases h
      calc count ≤ count + (trend.Wind.ParseWind t4).2 := Nat.le_add_right _ _
        _ ≤ _ := decodeWeatherCondition_mono trendWCOps _ _ tokens

theorem trendStepDate_mono (rt : RefDate) (tokens : List String)
    (trend : Trend) (logs : List String) (count : Nat) (t : Trend)
    (l : List String) (c : Nat)
    (h : trendStepDate rt tokens trend logs count = some (.cont t l c)) :
    count ≤ c := by
  unfold trendStepDate at h
  split at h
  · cases h
  next t3 heq =>
    split at h
    · cases h
    next dt heq2 =>
      have h2 := trendStepWind_mono rt tokens dt.1 (logs ++ dt.2.1)
        (if dt.2.2 then count + 1 else count) t l c h
      split at h2 <;> omega

theorem trendStep_mono (rt : RefDate) (tokens : List String) (trend : Trend)
    (logs : List String) (count : Nat) (t : Trend) (l : List String) (c : Nat)
    (h : trendStep rt tokens trend logs count = some (.cont t l c)) :
    count ≤ c := by
  unfold trendStep at h
  split at h
  · cases h
  next t0 heq =>
    dsimp only at h
    split at h
    · cases h
    next t1 heq1 =>
      try dsimp only at h
      split at h
      · cases h
      next pl heq2 =>
        have h1 := periodLoop_mono rt tokens _ logs _ pl heq2
        have h2 := trendStepDate_mono rt tokens pl.1 pl.2.1 pl.2.2 t l c h
        split at h1 <;> split at h1 <;> omega

/-- Fuel-driven engine of the main loop of `parseTrendData` (the fuel
never exhausts: `trendStep_mono` shows the cursor never moves back, and the
trailing `count++` advances it, so iterations are bounded by the token
count). -/
def parseTrendDataLoopGo (rt : RefDate) (tokens : List String) :
    Nat → Trend → List String → Nat → Option (Trend × List String)
  | 0, _, _, _ => none
  | fuel + 1, trend, logs, count =>
    if count < tokens.length then
      match trendStep rt tokens trend logs count with
      | none => none
      | some (.done t l) => some (t, l)
      | some (.cont t l c) => parseTrendDataLoopGo rt tokens fuel t l (c + 1)
    else some (trend, logs)

/-- The main loop of `parseTrendData`
(`for count := 0; count < len(tokens); count++ { … }` with the CAVOK early
return); `none` = panic. -/
def parseTrendDataLoop (rt : RefDate) (tokens : List String) (trend : Trend)
    (logs : List String) (count : Nat) : Option (Trend × List String) :=
  parseTrendDataLoopGo rt tokens (tokens.length + 1 - count) trend logs count

/-- `parseTrendData` — builds a `Trend` from a trend-group token slice.
The Go function returns a never-nil pointer; here the result also carries
the accumulated log lines, and `none` models a panic. -/
def parseTrendData (rt : RefDate) (tokens : List String) :
    Option (Trend × List String) :=
  parseTrendDataLoop rt tokens {} [] 0

/-! ## METAR message (first file of src/metar.go) -/

/-- `WindOnRWY` — surface wind observations on the runways. -/
structure WindOnRWY where
  Runway : String := ""
  Wind : Wind := {}
deriving DecidableEq, Repr

/-- `Remark` — additional information not included in the main message
(the source spells the first obscuration flag with a Cyrillic М;
transliterated here). -/
structure Remark where
  WindOnRWY : List WindOnRWY := []
  QBB : Int := 0
  MTOBSC : Bool := false
  MASTOBSC : Bool := false
  OBSTOBSC : Bool := false
  QFE : Int := 0
deriving DecidableEq, Repr

/-- Alias for the phenomena list type, used where an earlier field named
`Phenomena` shadows the type name inside a structure declaration. -/
abbrev PhenomenaList := Phenomena

/-- `MetarMessage` — meteorological report presented as a data structure.
Go zero values as defaults; embedded fields become named fields. -/
structure MetarMessage where
  RawData : String := ""
  COR : Bool := false
  Station : String := ""
  DateTime : GoDate := zeroDate
  Auto : Bool := false
  NIL : Bool := false
  Wind : Wind := {}
  CAVOK : Bool := false
  Visibility : Visibility := {}
  RWYvisibility : List VisualRange := []
  Phenomena : Phenomena := []
  PhenomenaNotDefined : Bool := false
  VerticalVisibility : Int := 0
  VerticalVisibilityNotDefined : Bool := false
  Clouds : Clouds := []
  Temperature : Int := 0
  Dewpoint : Int := 0
  QNHhPa : Int := 0
  RecentPhenomena : PhenomenaList := []
  RWYState : List RwyState := []
  WindShear : List RunwayDesignator := []
  TREND : List Trend := []
  NOSIG : Bool := false
  Remarks : Option Remark := none
  NotDecodedTokens : List String := []
deriving DecidableEq, Repr

/-- `MetarMessage.RAW` — returns the original message text. -/
def MetarMessage.RAW (m : MetarMessage) : String := m.RawData

/-- `MetarMessage.setTemperature` — temperature and dew point. -/
def MetarMessage.setTemperature (m : MetarMessage) (input : String) :
    MetarMessage × Bool :=
  match findStringSubmatch true temperatureRE 4 input with
  | none => (m, false)
  | some ms =>
    let t := atoiGo (ms.getD 2 "")
    let dp := atoiGo (ms.getD 4 "")
    let t := if ms.getD 1 "" = "M" then -t else t
    let dp := if ms.getD 3 "" = "M" then -dp else dp
    ({ m with Temperature := t, Dewpoint := dp }, true)

/-- `MetarMessage.setAltimetr` — altimeter setting (`Q` hPa directly, `A`
inches of mercury converted). -/
def MetarMessage.setAltimetr (m : MetarMessage) (input : String) :
    MetarMessage × Bool :=
  match findStringSubmatch false altimeterRE 2 input with
  | none => (m, false)
  | some ms =>
    if ms.getD 1 "" = "A" then
      let inHg : Rat := (atoiGo (ms.getD 2 "") : Rat) / 100
      ({ m with QNHhPa := goInt (InHgTohPa inHg) }, true)
    else ({ m with QNHhPa := atoiGo (ms.getD 2 "") }, true)

/-- `MetarMessage.appendRunwayVisualRange`. -/
def MetarMessage.appendRunwayVisualRange (m : MetarMessage) (input : String) :
    MetarMessage × Bool :=
  match ParseVisualRange input with
  | some rv => ({ m with RWYvisibility := m.RWYvisibility ++ [rv] }, true)
  | none => (m, false)

/-- `MetarMessage.setVerticalVisibility`. -/
def MetarMessage.setVerticalVisibility (m : MetarMessage) (input : String) :
    MetarMessage × Bool :=
  match parseVerticalVisibility input with
  | some r =>
    ({ m with VerticalVisibility := r.1, VerticalVisibilityNotDefined := r.2 }, true)
  | none => (m, false)

/-- `MetarMessage.appendRunwayState` — the `R/SNOCLO` sentinel or a parsed
runway-state group. -/
def MetarMessage.appendRunwayState (m : MetarMessage) (input : String) :
    MetarMessage × Bool :=
  if input = "R/SNOCLO" then
    ({ m with RWYState := m.RWYState ++ [{ SNOCLO := true }] }, true)
  else
    match ParseState input with
    | some rwc => ({ m with RWYState := m.RWYState ++ [rwc] }, true)
    | none => (m, false)

/-- Recent-weather step (`m.RecentPhenomena.AppendRecentPhenomena`). -/
def mRecentStep (m : MetarMessage) (tok : String) : MetarMessage × Bool :=
  let r := m.RecentPhenomena.AppendRecentPhenomena tok
  ({ m with RecentPhenomena := r.1 }, r.2)

/-- The `weatherCondition` capability instance of `MetarMessage`. -/
def metarWCOps : WCOps MetarMessage where
  parseVisibility m toks :=
    let r := m.Visibility.ParseVisibility toks
    ({ m with Visibility := r.1 }, r.2)
  appendPhenomena m tok :=
    let r := m.Phenomena.AppendPhenomena tok
    ({ m with Phenomena := r.1 }, r.2)
  setVerticalVisibility := MetarMessage.setVerticalVisibility
  appendCloud m tok :=
    let r := m.Clouds.AppendCloud tok
    ({ m with Clouds := r.1 }, r.2)

/-- The `//` not-defined-phenomena marker step of
`setMetarWeatherCondition`. -/
def dwcSlashes (m : MetarMessage) (count : Nat) (tokens : List String) :
    MetarMessage × Nat :=
  if count < tokens.length ∧ tokens.getD count "" = "//" then
    ({ m with PhenomenaNotDefined := true }, count + 1)
  else (m, count)

/-- `setMetarWeatherCondition` — the METAR body's weather-condition walk
(horizontal visibility, runway visual range, `//`, phenomena, vertical
visibility, clouds); returns the new position. -/
def setMetarWeatherCondition (m : MetarMessage) (count : Nat)
    (tokens : List String) : MetarMessage × Nat :=
  let r0 := dwcVis metarWCOps m count tokens
  let r1 := wcRepeat MetarMessage.appendRunwayVisualRange r0.1 tokens r0.2
  let r2 := dwcSlashes r1.1 r1.2 tokens
  let r3 := wcRepeat metarWCOps.appendPhenomena r2.1 tokens r2.2
  let r4 := dwcVV metarWCOps r3.1 r3.2 tokens
  wcRepeat metarWCOps.appendCloud r4.1 tokens r4.2

theorem dwcSlashes_mono (m : MetarMessage) (count : Nat)
    (tokens : List String) : count ≤ (dwcSlashes m count tokens).2 := by
  unfold dwcSlashes
  split <;> simp

theorem setMetarWeatherCondition_mono (m : MetarMessage) (count : Nat)
    (tokens : List String) :
    count ≤ (setMetarWeatherCondition m count tokens).2 := by
  unfold setMetarWeatherCondition
  dsimp only
  have h0 := dwcVis_mono metarWCOps m count tokens
  generalize (dwcVis metarWCOps m count tokens) = r0 at *
  have h1 := wcRepeat_mono MetarMessage.appendRunwayVisualRange r0.1 tokens r0.2
  generalize (wcRepeat MetarMessage.appendRunwayVisualRange r0.1 tokens r0.2) = r1 at *
  have h2 := dwcSlashes_mono r1.1 r1.2 tokens
  generalize (dwcSlashes r1.1 r1.2 tokens) = r2 at *
  have h3 := wcRepeat_mono metarWCOps.appendPhenomena r2.1 tokens r2.2
  generalize (wcRepeat metarWCOps.appendPhenomena r2.1 tokens r2.2) = r3 at *
  have h4 := dwcVV_mono metarWCOps r3.1 r3.2 tokens
  generalize (dwcVV metarWCOps r3.1 r3.2 tokens) = r4 at *
  have h5 := wcRepeat_mono metarWCOps.appendCloud r4.1 tokens r4.2
  omega

/-- Fuel-driven rescanning loop of `appendWindShears`; `tokensused`
accumulates the total. `none` models divergence/panic (unreachable: the
alternation's two groups cannot both be empty on a match, a match consumes
at least as many tokens as the increment, and the fuel covers all
iterations since each consumes at least two tokens). -/
def appendWindShearsLoop (tokens : List String) :
    Nat → MetarMessage → Nat → Bool → Nat → Option (MetarMessage × Bool × Nat)
  | 0, _, _, _, _ => none
  | fuel + 1, m, count, ok, tokensused =>
    if count ≤ tokens.length then
      match findStringSubmatch true windShearRE 3 (joinSpace (tokens.drop count)) with
      | none => some (m, ok, tokensused)
      | some ms =>
        if ms.getD 3 "" ≠ "" then
          let m := { m with WindShear := m.WindShear ++ [{ AllRunways := true }] }
          appendWindShearsLoop tokens fuel m (count + 3) true (tokensused + 3)
        else if ms.getD 2 "" ≠ "" then
          let m := { m with WindShear := m.WindShear ++ [NewRD (ms.getD 1 "")] }
          appendWindShearsLoop tokens fuel m (count + 2) true (tokensused + 2)
        else none
    else none

/-- `MetarMessage.appendWindShears` — returns the updated record, the Go
`ok` flag and the number of tokens used. -/
def MetarMessage.appendWindShears (m : MetarMessage) (tokens : List String)
    (count : Nat) : Option (MetarMessage × Bool × Nat) :=
  appendWindShearsLoop tokens (tokens.length + 2 - count) m count false 0

/-- Temperature/dew-point phase of the `decodeMetar` loop body
(`if m.setTemperature(tokens[count]) { count++ }` with its unguarded
index). -/
def metarStepTemp (m : MetarMessage) (tokens : List String) (count : Nat) :
    Option (MetarMessage × Nat) :=
  match tokenAt tokens count with
  | none => none
  | some tk =>
    let tr := m.setTemperature tk
    some (tr.1, if tr.2 then count + 1 else count)

/-- Altimeter phase of the `decodeMetar` loop body. -/
def metarStepAlt (m : MetarMessage) (tokens : List String) (count : Nat) :
    Option (MetarMessage × Nat) :=
  match tokenAt tokens count with
  | none => none
  | some tk =>
    let ar := m.setAltimetr tk
    some (ar.1, if ar.2 then count + 1 else count)

/-- The caller-side count update after `appendWindShears`
(`if ok { count += tokensused }`). -/
def wsAdvance (count : Nat) (ws : MetarMessage × Bool × Nat) : Nat :=
  if ws.2.1 then count + ws.2.2 else count

/-- Final phase of the `decodeMetar` loop body: recent weather, wind
shear, runway state, and the unmatched-token fallback. -/
def metarStepRest (m : MetarMessage) (tokens : List String) (count : Nat) :
    Option (MetarMessage × Nat) :=
  let rp := wcRepeat mRecentStep m tokens count
  match rp.1.appendWindShears tokens rp.2 with
  | none => none
  | some ws =>
    let rs := wcRepeat MetarMessage.appendRunwayState ws.1 tokens (wsAdvance rp.2 ws)
    if rs.2 < tokens.length then
      some ({ rs.1 with
        NotDecodedTokens := rs.1.NotDecodedTokens ++ [tokens.getD rs.2 ""] },
        rs.2 + 1)
    else some (rs.1, rs.2)

/-- The CAVOK check of the `decodeMetar` loop body: the CAVOK literal
skips the weather-condition walk for this iteration. -/
def metarStepCavok (m : MetarMessage) (tokens : List String) (count : Nat)
    (tk : String) : MetarMessage × Nat :=
  if tk = "CAVOK" then ({ m with CAVOK := true }, count + 1)
  else setMetarWeatherCondition m count tokens

/-- Head of the `decodeMetar` loop body: surface wind over the joined
remaining tokens, then the (unguarded) CAVOK check. -/
def metarStepHead (m : MetarMessage) (tokens : List String) (count : Nat) :
    Option (MetarMessage × Nat) :=
  let wr := m.Wind.ParseWind (joinSpace (tokens.drop count))
  match tokenAt tokens (count + wr.2) with
  | none => none
  | some tk =>
    some (metarStepCavok { m with Wind := wr.1 } tokens (count + wr.2) tk)

/-- One iteration of the body of `decodeMetar`'s main loop
(`none` = panic). -/
def metarStep (m : MetarMessage) (tokens : List String) (count : Nat) :
    Option (MetarMessage × Nat) :=
  (metarStepHead m tokens count).bind fun r1 =>
    (metarStepTemp r1.1 tokens r1.2).bind fun r2 =>
      (metarStepAlt r2.1 tokens r2.2).bind fun r3 =>
        metarStepRest r3.1 tokens r3.2

theorem tokenAt_lt (tokens : List String) (c : Nat) (t : String)
    (h : tokenAt tokens c = some t) : c < tokens.length := by
  unfold tokenAt at h
  split at h
  · assumption
  · cases h

theorem metarStepTemp_mono (m : MetarMessage) (tokens : List String)
    (count : Nat) (r : MetarMessage × Nat)
    (h : metarStepTemp m tokens count = some r) : count ≤ r.2 := by
  unfold metarStepTemp at h
  split at h
  · cases h
  · cases h
    dsimp only
    split <;> omega

theorem metarStepAlt_mono (m : MetarMessage) (tokens : List String)
    (count : Nat) (r : MetarMessage × Nat)
    (h : metarStepAlt m tokens count = some r) : count ≤ r.2 := by
  unfold metarStepAlt at h
  split at h
  · cases h
  · cases h
    dsimp only
    split <;> omega

theorem metarStepRest_bound (m : MetarMessage) (tokens : List String)
    (count : Nat) (r : MetarMessage × Nat)
    (h : metarStepRest m tokens count = some r) :
    count ≤ r.2 ∧ (count < r.2 ∨ tokens.length ≤ r.2) := by
  unfold metarStepRest at h
  dsimp only at h
  have h0 := wcRepeat_mono mRecentStep m tokens count
  split at h
  · cases h
  next ws hws =>
    try dsimp only at h
    have h1 : (wcRepeat mRecentStep m tokens count).2 ≤
        wsAdvance (wcRepeat mRecentStep m tokens count).2 ws := by
      unfold wsAdvance
      split <;> omega
    have h2 := wcRepeat_mono MetarMessage.appendRunwayState ws.1 tokens
      (wsAdvance (wcRepeat mRecentStep m tokens count).2 ws)
    split at h
    next hlt =>
      cases h
      dsimp only
      omega
    next hlt =>
      cases h
      dsimp only
      omega

theorem metarStepCavok_mono (m : MetarMessage) (tokens : List String)
    (count : Nat) (tk : String) :
    count ≤ (metarStepCavok m tokens count tk).2 := by
  unfold metarStepCavok
  split
  · simp
  · exact setMetarWeatherCondition_mono m count tokens

theorem metarStepHead_mono (m : MetarMessage) (tokens : List String)
    (count : Nat) (r : MetarMessage × Nat)
    (h : metarStepHead m tokens count = some r) : count ≤ r.2 := by
  unfold metarStepHead at h
  dsimp only at h
  split at h
  · cases h
  next tk htk =>
    cases h
    exact Nat.le_trans (Nat.le_add_right _ _) (metarStepCavok_mono _ tokens _ tk)

theorem metarStep_progress (m : MetarMessage) (tokens : List String)
    (count : Nat) (r : MetarMessage × Nat) (hl : count < tokens.length)
    (h : metarStep m tokens count = some r) : count < r.2 := by
  unfold metarStep at h
  rw [Option.bind_eq_some] at h
  obtain ⟨r1, hr1, h⟩ := h
  rw [Option.bind_eq_some] at h
  obtain ⟨r2, hr2, h⟩ := h
  rw [Option.bind_eq_some] at h
  obtain ⟨r3, hr3, h⟩ := h
  have h1 := metarStepHead_mono m tokens count r1 hr1
  have h2 := metarStepTemp_mono r1.1 tokens r1.2 r2 hr2
  have h3 := metarStepAlt_mono r2.1 tokens r2.2 r3 hr3
  have hb := metarStepRest_bound r3.1 tokens r3.2 r h
  omega

/-- Fuel-driven engine of the main loop of `decodeMetar` (fuel never
exhausts: `metarStep_progress` shows the cursor strictly advances). -/
def decodeMetarLoopGo (tokens : List String) :
    Nat → MetarMessage → Nat → Option MetarMessage
  | 0, _, _ => none
  | fuel + 1, m, count =>
    if count < tokens.length then
      match metarStep m tokens count with
      | none => none
      | some r => decodeMetarLoopGo tokens fuel r.1 r.2
    else some m

/-- The main loop of `decodeMetar`
(`for count := 0; count < totalcount; { … }`). -/
def decodeMetarLoop (m : MetarMessage) (tokens : List String) (count : Nat) :
    Option MetarMessage :=
  decodeMetarLoopGo tokens (tokens.length + 1 - count) m count

/-- `MetarMessage.decodeMetar` — strips a trailing NOSIG (the unguarded
`tokens[len(tokens)-1]` access panics on an empty body slice) and runs the
main grammar walk. -/
def MetarMessage.decodeMetar (m : MetarMessage) (tokens : List String) :
    Option MetarMessage :=
  match tokens.getLast? with
  | none => none
  | some last =>
    if last = "NOSIG" then
      decodeMetarLoop { m with NOSIG := true } tokens.dropLast 0
    else decodeMetarLoop m tokens 0

/-- The RMK-extraction loop of `NewMETAR`
(`for i := totalcount-1; i > count; i-- { if tokens[i] == "RMK" … }`):
returns the new `totalcount` and the collected remarks tokens. -/
def rmkScan (tokens : List String) (count : Nat) :
    Nat → Nat → List String → Nat × List String
  | 0, tc, remarks => (tc, remarks)
  | i + 1, tc, remarks =>
    if i + 1 ≤ count then (tc, remarks)
    else if tokens.getD (i + 1) "" = "RMK" then
      rmkScan tokens count i (i + 1) (remarks ++ ((tokens.take tc).drop (i + 1)))
    else rmkScan tokens count i tc remarks

/-- The trend-extraction loop of `NewMETAR`: a trend slice starts at each
exact TEMPO or BECMG token, scanning right to left, each slice prepended. -/
def metarTrendScan (tokens : List String) (count : Nat) :
    Nat → Nat → List (List String) → Nat × List (List String)
  | 0, tc, trends => (tc, trends)
  | i + 1, tc, trends =>
    if i + 1 ≤ count then (tc, trends)
    else if tokens.getD (i + 1) "" = TEMPO ∨ tokens.getD (i + 1) "" = BECMG then
      metarTrendScan tokens count i (i + 1) (((tokens.take tc).drop (i + 1)) :: trends)
    else metarTrendScan tokens count i tc trends

/-- Decoding of the collected trend slices in list order
(`for _, trendstr := range trends { m.appendTrend(trendstr) }`;
`parseTrendData` never returns nil, so every slice appends one Trend).
Logged lines are discarded as in Go (they go to the process logger). -/
def trendsFold (rt : RefDate) : List (List String) → Option (List Trend)
  | [] => some []
  | ts :: rest =>
    match parseTrendData rt ts with
    | none => none
    | some r =>
      match trendsFold rt rest with
      | none => none
      | some others => some (r.1 :: others)

/-! ## Remarks decoder (src/remarks.go) -/

/-- Fuel-driven engine of the obscuration loop of `parseRemarks` (fuel
never exhausts: see `wcRepeatGo`). -/
def obscLoopGo (tokens : List String) : Nat → Remark → Nat → Remark × Nat
  | 0, rmk, count => (rmk, count)
  | fuel + 1, rmk, count =>
    if count + 1 < tokens.length ∧ tokens.getD (count + 1) "" = "OBSC" then
      let tok := tokens.getD count ""
      let rmk :=
        if tok = "MT" then { rmk with MTOBSC := true }
        else if tok = "MAST" then { rmk with MASTOBSC := true }
        else if tok = "OBST" then { rmk with OBSTOBSC := true }
        else rmk
      obscLoopGo tokens fuel rmk (count + 2)
    else (rmk, count)

/-- The obscuration loop of `parseRemarks`
(`for count < len(tokens)-1 && tokens[count+1] == "OBSC" { … count += 2 }`). -/
def obscLoop (tokens : List String) (rmk : Remark) (count : Nat) :
    Remark × Nat :=
  obscLoopGo tokens (tokens.length + 1 - count) rmk count

theorem obscLoopGo_mono (tokens : List String) (fuel : Nat) :
    ∀ (rmk : Remark) (count : Nat), count ≤ (obscLoopGo tokens fuel rmk count).2 := by
  induction fuel with
  | zero => intro rmk count; exact Nat.le_refl count
  | succ fuel ih =>
    intro rmk count
    rw [obscLoopGo]
    dsimp only
    split
    next h =>
      have := ih
        (if tokens.getD count "" = "MT" then { rmk with MTOBSC := true }
         else if tokens.getD count "" = "MAST" then { rmk with MASTOBSC := true }
         else if tokens.getD count "" = "OBST" then { rmk with OBSTOBSC := true }
         else rmk) (count + 2)
      omega
    next h => exact Nat.le_refl count

theorem obscLoop_mono (tokens : List String) (rmk : Remark) (count : Nat) :
    count ≤ (obscLoop tokens rmk count).2 :=
  obscLoopGo_mono tokens (tokens.length + 1 - count) rmk count

/-- Wind-on-runway group of `parseRemarks` (fresh `WindOnRWY`, runway name
from the designator without its `R`, wind parsed from the concatenation of
the group's tail and the following token). -/
def remarksWind (tokens : List String) (rmk : Remark) (count : Nat) :
    Remark × Nat :=
  match findStringSubmatch true rmkWindRE 7 (tokens.getD count "") with
  | none => (rmk, count)
  | some ms =>
    let runway := String.mk ((ms.getD 1 "").data.drop 1)
    let input := (ms.getD 2 "") ++
      (if count < tokens.length - 1 then tokens.getD (count + 1) "" else "")
    let wr := Wind.ParseWind {} input
    ({ rmk with WindOnRWY := rmk.WindOnRWY ++ [{ Runway := runway, Wind := wr.1 }] },
      count + wr.2)

/-- QBB (cloud base in meters) group of `parseRemarks`. -/
def remarksQBB (tokens : List String) (rmk : Remark) (count : Nat) :
    Remark × Nat :=
  if count < tokens.length ∧ hasPrefixGo (tokens.getD count "") "QBB" then
    ({ rmk with QBB := atoiGo (String.mk ((tokens.getD count "").data.drop 3)) },
      count + 1)
  else (rmk, count)

/-- QFE (field-elevation pressure) group of `parseRemarks`; `none` models
the `tokens[count][3:6]` panic on a short QFE token. -/
def remarksQFE (tokens : List String) (rmk : Remark) (count : Nat) :
    Option (Remark × Nat) :=
  if count < tokens.length ∧ hasPrefixGo (tokens.getD count "") "QFE" then
    let tok := tokens.getD count ""
    if 6 ≤ tok.length then
      some ({ rmk with QFE := atoiGo (strSub tok 3 6) }, count + 1)
    else none
  else some (rmk, count)

/-- One iteration of `parseRemarks`' loop up to (but not including) the
final `count++`. -/
def remarksStep (tokens : List String) (rmk : Remark) (count : Nat) :
    Option (Remark × Nat) :=
  let r1 := remarksWind tokens rmk count
  let r2 := remarksQBB tokens r1.1 r1.2
  let r3 := obscLoop tokens r2.1 r2.2
  remarksQFE tokens r3.1 r3.2

theorem remarksWind_mono (tokens : List String) (rmk : Remark) (count : Nat) :
    count ≤ (remarksWind tokens rmk count).2 := by
  unfold remarksWind
  split
  · exact Nat.le_refl count
  · dsimp only
    exact Nat.le_add_right _ _

theorem remarksQBB_mono (tokens : List String) (rmk : Remark) (count : Nat) :
    count ≤ (remarksQBB tokens rmk count).2 := by
  unfold remarksQBB
  split <;> simp

theorem remarksQFE_mono (tokens : List String) (rmk : Remark) (count : Nat)
    (r : Remark × Nat) (h : remarksQFE tokens rmk count = some r) :
    count ≤ r.2 := by
  unfold remarksQFE at h
  split at h
  · dsimp only at h
    split at h
    · cases h; simp
    · cases h
  · cases h; simp

theorem remarksStep_mono (tokens : List String) (rmk : Remark) (count : Nat)
    (r : Remark × Nat) (h : remarksStep tokens rmk count = some r) :
    count ≤ r.2 := by
  unfold remarksStep at h
  dsimp only at h
  have h1 := remarksWind_mono tokens rmk count
  have h2 := remarksQBB_mono tokens (remarksWind tokens rmk count).1
    (remarksWind tokens rmk count).2
  have h3 := obscLoop_mono tokens
    (remarksQBB tokens (remarksWind tokens rmk count).1
      (remarksWind tokens rmk count).2).1
    (remarksQBB tokens (remarksWind tokens rmk count).1
      (remarksWind tokens rmk count).2).2
  have h4 := remarksQFE_mono tokens _ _ r h
  omega

/-- Fuel-driven engine of the main loop of `parseRemarks` (fuel never
exhausts: `remarksStep_mono` and the trailing `count++`). -/
def parseRemarksLoopGo (tokens : List String) :
    Nat → Remark → Nat → Option Remark
  | 0, _, _ => none
  | fuel + 1, rmk, count =>
    if count < tokens.length then
      match remarksStep tokens rmk count with
      | none => none
      | some r => parseRemarksLoopGo tokens fuel r.1 (r.2 + 1)
    else some rmk

/-- The main loop of `parseRemarks` (every iteration ends with `count++`). -/
def parseRemarksLoop (tokens : List String) (rmk : Remark) (count : Nat) :
    Option Remark :=
  parseRemarksLoopGo tokens (tokens.length + 1 - count) rmk count

/-- `parseRemarks` — `some none` models the Go `nil` result on an empty
token slice, `none` a panic. -/
def parseRemarks (tokens : List String) : Option (Option Remark) :=
  if tokens.length = 0 then some none
  else
    match parseRemarksLoop tokens {} 0 with
    | none => none
    | some rmk => some (some rmk)

/-- `NewMETAR` — creates a new METAR based on the original message.
Result: the record and the Go error (`some` message when non-nil);
the outer `none` models a panic. -/
def NewMETAR (rt : RefDate) (inputtext : String) :
    Option (MetarMessage × Option String) :=
  let headermap := metarHeaderMap inputtext
  let m : MetarMessage :=
    { RawData := inputtext
      Station := mapGet headermap "station"
      DateTime := (goParseYMDHMZ (rt.curYearStr ++ rt.curMonthStr ++
        mapGet headermap "time")).getD zeroDate
      COR := mapGet headermap "cor" ≠ ""
      Auto := mapGet headermap "auto" ≠ ""
      NIL := mapGet headermap "nil" ≠ "" }
  if m.Station = "" ∧ m.DateTime.isZero then
    some (m, some "not valid message in input")
  else if m.NIL then some (m, none)
  else
    let tokens := splitSpace m.RawData
    let totalcount := tokens.length
    let count := (headermap.filter (fun p => p.2 ≠ "")).length
    let rm := rmkScan tokens count (totalcount - 1) totalcount []
    let tr := metarTrendScan tokens count (rm.1 - 1) rm.1 []
    match trendsFold rt tr.2 with
    | none => none
    | some trendList =>
      let m := { m with TREND := trendList }
      match parseRemarks rm.2 with
      | none => none
      | some rmks =>
        let m := { m with Remarks := rmks }
        match MetarMessage.decodeMetar m ((tokens.take tr.1).drop count) with
        | none => none
        | some m2 => some (m2, none)

/-! ## TAF message (src/taf.go) -/

/-- `TemperatureForecast` — forecast max and min temperature. -/
structure TemperatureForecast where
  Temp : Int := 0
  DateTime : GoDate := zeroDate
  IsMax : Bool := false
  IsMin : Bool := false
deriving DecidableEq, Repr

/-- `TAFMessage` — Terminal Aerodrome Forecast struct. -/
structure TAFMessage where
  RawData : String := ""
  COR : Bool := false
  AMD : Bool := false
  NIL : Bool := false
  Station : String := ""
  DateTime : GoDate := zeroDate
  ValidFrom : GoDate := zeroDate
  ValidTo : GoDate := zeroDate
  CNL : Bool := false
  Wind : Wind := {}
  CAVOK : Bool := false
  Visibility : Visibility := {}
  Phenomena : Phenomena := []
  VerticalVisibility : Int := 0
  Clouds : Clouds := []
  Temperature : List TemperatureForecast := []
  TREND : List Trend := []
  NotDecodedTokens : List String := []
deriving DecidableEq, Repr

/-- `TAFMessage.RAW` — returns the original message text. -/
def TAFMessage.RAW (t : TAFMessage) : String := t.RawData

/-- `TAFMessage.setVerticalVisibility` (TAF variant, `VV(\d{3})`). -/
def TAFMessage.setVerticalVisibility (t : TAFMessage) (input : String) :
    TAFMessage × Bool :=
  match findStringSubmatch false vvTafRE 1 input with
  | none => (t, false)
  | some ms =>
    if ms.getD 1 "" ≠ "" then
      ({ t with VerticalVisibility := atoiGo (ms.getD 1 "") * 100 }, true)
    else (t, false)

/-- The `weatherCondition` capability instance of `TAFMessage`. -/
def tafWCOps : WCOps TAFMessage where
  parseVisibility t toks :=
    let r := t.Visibility.ParseVisibility toks
    ({ t with Visibility := r.1 }, r.2)
  appendPhenomena t tok :=
    let r := t.Phenomena.AppendPhenomena tok
    ({ t with Phenomena := r.1 }, r.2)
  setVerticalVisibility := TAFMessage.setVerticalVisibility
  appendCloud t tok :=
    let r := t.Clouds.AppendCloud tok
    ({ t with Clouds := r.1 }, r.2)

/-- The raw forecast instant of `addTempForecast` (match group 4, with the
hour-24 rule, before the next-month adjustment). -/
def tempFcstRawDate (rt : RefDate) (m4 : String) : GoDate :=
  if String.mk (m4.data.drop 2) = "24Z" then
    (((goParseYMDH (rt.curYearStr ++ rt.curMonthStr ++
      strSub m4 0 2 ++ "23")).getD zeroDate).addOneHour)
  else (goParseYMDHZ (rt.curYearStr ++ rt.curMonthStr ++ m4)).getD zeroDate

/-- `TAFMessage.addTempForecast` — a `TX`/`TN` temperature-extreme entry
(with the hour-24 and next-month rules applied to its instant). -/
def TAFMessage.addTempForecast (rt : RefDate) (t : TAFMessage) (input : String) :
    TAFMessage × Bool :=
  match findStringSubmatch true tempForecastRE 4 input with
  | none => (t, false)
  | some ms =>
    let m1 := ms.getD 1 ""
    let m2 := ms.getD 2 ""
    let m3 := ms.getD 3 ""
    let m4 := ms.getD 4 ""
    let temp := if m2 = "M" then -(atoiGo m3) else atoiGo m3
    let dt := monthAdvance t.DateTime.dayOf (tempFcstRawDate rt m4)
    ({ t with Temperature := t.Temperature ++
        [{ Temp := temp, DateTime := dt, IsMin := m1 = "N", IsMax := m1 = "X" }] },
      true)

/-- The raw `ValidTo` computation of `setTimeRange` (hour-24 handling,
before the next-month adjustment); `none` models the `toStr[2:]` panic when
the validity window is absent from the header. -/
def tafValidToRaw (rt : RefDate) (toStr : String) : Option GoDate :=
  match strFrom toStr 2 with
  | none => none
  | some suffix =>
    if suffix = "24" then
      some (((goParseYMDH (rt.curYearStr ++ rt.curMonthStr ++
        strSub toStr 0 2 ++ "23")).getD zeroDate).addOneHour)
    else
      some ((goParseYMDH (rt.curYearStr ++ rt.curMonthStr ++ toStr)).getD zeroDate)

/-- `TAFMessage.setTimeRange` — validity window with hour-24 and next-month
rules. -/
def TAFMessage.setTimeRange (rt : RefDate) (t : TAFMessage)
    (fromStr toStr : String) : Option TAFMessage :=
  let vf := (goParseYMDH (rt.curYearStr ++ rt.curMonthStr ++ fromStr)).getD zeroDate
  match tafValidToRaw rt toStr with
  | none => none
  | some vt =>
    some { t with ValidFrom := monthAdvance t.DateTime.dayOf vf,
                  ValidTo := monthAdvance t.DateTime.dayOf vt }

/-- CAVOK check of the `decodeTAF` loop body. -/
def tafStepCavok (t : TAFMessage) (tokens : List String) (count : Nat)
    (tk : String) : TAFMessage × Nat :=
  if tk = "CAVOK" then ({ t with CAVOK := true }, count + 1)
  else decodeWeatherCondition tafWCOps t count tokens

/-- Head of the `decodeTAF` loop body: single-token surface wind, then the
(unguarded) CAVOK check. -/
def tafStepHead (t : TAFMessage) (tokens : List String) (count : Nat) :
    Option (TAFMessage × Nat) :=
  match tokenAt tokens count with
  | none => none
  | some tk =>
    let wr := t.Wind.ParseWind tk
    match tokenAt tokens (count + wr.2) with
    | none => none
    | some tk2 =>
      some (tafStepCavok { t with Wind := wr.1 } tokens (count + wr.2) tk2)

/-- Temperature-forecast step for `wcRepeat`. -/
def tafTempStep (rt : RefDate) (t : TAFMessage) (tok : String) :
    TAFMessage × Bool :=
  TAFMessage.addTempForecast rt t tok

/-- Tail of the `decodeTAF` loop body: the temperature-forecast loop and
the unmatched-token fallback. -/
def tafStepTail (rt : RefDate) (t : TAFMessage) (tokens : List String)
    (count : Nat) : TAFMessage × Nat :=
  let r2 := wcRepeat (tafTempStep rt) t tokens count
  if r2.2 < tokens.length then
    ({ r2.1 with NotDecodedTokens := r2.1.NotDecodedTokens ++ [tokens.getD r2.2 ""] },
      r2.2 + 1)
  else r2

/-- One iteration of the body of `decodeTAF`'s main loop (`none` = panic). -/
def tafStep (rt : RefDate) (t : TAFMessage) (tokens : List String)
    (count : Nat) : Option (TAFMessage × Nat) :=
  (tafStepHead t tokens count).map fun r1 => tafStepTail rt r1.1 tokens r1.2

theorem tafStepCavok_mono (t : TAFMessage) (tokens : List String)
    (count : Nat) (tk : String) :
    count ≤ (tafStepCavok t tokens count tk).2 := by
  unfold tafStepCavok
  split
  · simp
  · exact decodeWeatherCondition_mono tafWCOps t count tokens

theorem tafStepHead_mono (t : TAFMessage) (tokens : List String)
    (count : Nat) (r : TAFMessage × Nat)
    (h : tafStepHead t tokens count = some r) : count ≤ r.2 := by
  unfold tafStepHead at h
  split at h
  · cases h
  next tk htk =>
    dsimp only at h
    split at h
    · cases h
    next tk2 htk2 =>
      cases h
      exact Nat.le_trans (Nat.le_add_right _ _) (tafStepCavok_mono _ tokens _ tk2)

theorem tafStepTail_bound (rt : RefDate) (t : TAFMessage)
    (tokens : List String) (count : Nat) :
    count ≤ (tafStepTail rt t tokens count).2 ∧
      (count < (tafStepTail rt t tokens count).2 ∨
        tokens.length ≤ (tafStepTail rt t tokens count).2) := by
  unfold tafStepTail
  dsimp only
  have h0 := wcRepeat_mono (tafTempStep rt) t tokens count
  split
  next hlt =>
    dsimp only
    omega
  next hlt =>
    omega

theorem tafStep_progress (rt : RefDate) (t : TAFMessage)
    (tokens : List String) (count : Nat) (r : TAFMessage × Nat)
    (hl : count < tokens.length)
    (h : tafStep rt t tokens count = some r) : count < r.2 := by
  unfold tafStep at h
  rw [Option.map_eq_some'] at h
  obtain ⟨r1, hr1, h⟩ := h
  have h1 := tafStepHead_mono t tokens count r1 hr1
  have h2 := tafStepTail_bound rt r1.1 tokens r1.2
  subst h
  omega

/-- Fuel-driven engine of the main loop of `decodeTAF` (fuel never
exhausts: `tafStep_progress` shows the cursor strictly advances). -/
def decodeTAFLoopGo (rt : RefDate) (tokens : List String) :
    Nat → TAFMessage → Nat → Option TAFMessage
  | 0, _, _ => none
  | fuel + 1, t, count =>
    if count < tokens.length then
      match tafStep rt t tokens count with
      | none => none
      | some r => decodeTAFLoopGo rt tokens fuel r.1 r.2
    else some t

/-- The main loop of `decodeTAF`. -/
def decodeTAFLoop (rt : RefDate) (t : TAFMessage) (tokens : List String)
    (count : Nat) : Option TAFMessage :=
  decodeTAFLoopGo rt tokens (tokens.length + 1 - count) t count

/-- `TAFMessage.decodeTAF`. -/
def TAFMessage.decodeTAF (rt : RefDate) (t : TAFMessage)
    (tokens : List String) : Option TAFMessage :=
  decodeTAFLoop rt t tokens 0

/-- The scanning loop of `findTrendsInMessage`: trend markers are exact
TEMPO or BECMG tokens, or tokens with a PROB or FM head; a PROB-prefixed
token immediately before a found marker shifts the slice start onto it; an
RMK token resets the collected slices. -/
def tafTrendScan (tokens : List String) (sp : Nat) :
    Nat → Nat → List (List String) → Nat × List (List String)
  | 0, ep, trends => (ep, trends)
  | i + 1, ep, trends =>
    if i + 1 ≤ sp then (ep, trends)
    else
      let tk := tokens.getD (i + 1) ""
      if tk = TEMPO ∨ tk = BECMG ∨ hasPrefixGo tk "PROB" ∨ hasPrefixGo tk "FM" then
        if hasPrefixGo (tokens.getD i "") "PROB" then
          let trends2 := ((tokens.take ep).drop i) :: trends
          let trends3 := if tokens.getD i "" = "RMK" then [] else trends2
          match i with
          | 0 => (0, trends3)
          | j + 1 => tafTrendScan tokens sp j i trends3
        else
          let trends2 := ((tokens.take ep).drop (i + 1)) :: trends
          let trends3 := if tokens.getD (i + 1) "" = "RMK" then [] else trends2
          tafTrendScan tokens sp i (i + 1) trends3
      else
        let trends3 := if tk = "RMK" then [] else trends
        tafTrendScan tokens sp i ep trends3

/-- `TAFMessage.findTrendsInMessage` — scans for trend slices, decodes them
in order, and returns the body end position. -/
def TAFMessage.findTrendsInMessage (rt : RefDate) (t : TAFMessage)
    (tokens : List String) (startposition : Nat) :
    Option (TAFMessage × Nat) :=
  let sc := tafTrendScan tokens startposition (tokens.length - 1) tokens.length []
  match trendsFold rt sc.2 with
  | none => none
  | some trendList => some ({ t with TREND := t.TREND ++ trendList }, sc.1)

/-- `NewTAF` — creates a new TAF forecast based on the original message.
`none` models a panic (which `NewTAF` reaches on ordinary inputs whose
header lacks a validity window). -/
def NewTAF (rt : RefDate) (inputtext : String) : Option TAFMessage :=
  let headermap := tafHeaderMap inputtext
  let t : TAFMessage :=
    { RawData := inputtext
      Station := mapGet headermap "station"
      DateTime := (goParseYMDHMZ (rt.curYearStr ++ rt.curMonthStr ++
        mapGet headermap "time")).getD zeroDate
      COR := mapGet headermap "cor" ≠ ""
      AMD := mapGet headermap "amd" ≠ ""
      NIL := mapGet headermap "nil" ≠ ""
      CNL := mapGet headermap "cnl" ≠ "" }
  if t.Station = "" ∧ t.DateTime.isZero then
    some { t with NotDecodedTokens := t.NotDecodedTokens ++ [t.RawData] }
  else if t.NIL then some t
  else
    match t.setTimeRange rt (mapGet headermap "from") (mapGet headermap "to") with
    | none => none
    | some t =>
      if t.CNL then some t
      else
        let tokens := splitSpace t.RawData
        let position := (headermap.filter
          (fun p => p.2 ≠ "" ∧ p.1 ≠ "to")).length
        match t.findTrendsInMessage rt tokens position with
        | none => none
        | some te =>
          if position ≤ te.2 ∧ te.2 ≤ tokens.length then
            te.1.decodeTAF rt ((tokens.take te.2).drop position)
          else none

/-! ## Claim theorems -/

/-- The reference date used by the repository's own test-suite
(`curYear = 2023`, `curMonth = 05`, `curDay = 31`). -/
def testRef : RefDate := ⟨"2023", "05", "31"⟩

/-- C10: for every token string that `Wind.ParseWind` does not match, it
returns 0 tokens consumed and leaves every field of the `Wind` receiver
unchanged (the match check precedes every write). -/
theorem c10_parseWind_no_match_frame (w : Wind) (token : String)
    (h : findStringSubmatch true windRE 6 token = none) :
    w.ParseWind token = (w, 0) := by
  unfold Wind.ParseWind
  rw [h]

/-- Witness for C10 at the non-wind token "BKN020" from the repository's
wind tests. -/
theorem c10_witness : Wind.ParseWind {} "BKN020" = ({}, 0) :=
  c10_parseWind_no_match_frame {} "BKN020" (by rfl)

/-- C3 (code bug): `NewMETAR` and `NewTAF` are not total. A message that is
just a valid header panics `decodeMetar` (`tokens[len(tokens)-1]` on the
empty body slice); a METAR whose wind group is the last body token panics
at the CAVOK check (`tokens[count]` out of range); a TAF without a validity
window panics `setTimeRange` (`toStr[2:]` on the empty capture). `none` is
the embedding's image of a Go panic. -/
theorem c3_short_input_panics :
    NewMETAR testRef "ULLI 270830Z" = none ∧
    NewTAF testRef "ULLI 270830Z" = none ∧
    NewMETAR testRef "ULLI 270830Z 31005MPS" = none := by
  exact ⟨rfl, rfl, rfl⟩

/-- C1 (code bug): on the spec's Example-3 trend tokens the decode does
continue past the two calendar failures (type BECMG, visibility from
"0500", one FG phenomenon) and both instants stay zero, but the two parse
errors are only written to the process log (the second component, of
length 2): the `Trend` record — mirrored field-for-field from the source —
has no error list at all, so nothing is "appended to the owning record's
ordered error list" as the claim (and the repository's own
`TestParseTrendData`, which expects a `ParsingErrors` field) demands. -/
theorem c1_trend_errors_not_recorded :
    (parseTrendData testRef ["BECMG", "2526/2526", "0500", "FG"]).map
      (fun r => (r.1.ttype, r.1.FM, r.1.TL, r.1.Visibility.Distance,
        r.1.Phenomena, r.2.length)) =
      some (BECMG, zeroDate, zeroDate, 500,
        [{ Vicinity := false, Abbreviation := "FG", Intensity := "" }], 2) := by
  rfl

/-- C2 counterexample: on the header-less message "FOO", `NewMETAR` does
return the explicit error, but the record's not-decoded-tokens list is
empty — it does not contain the raw text, contrary to the claim (only
`NewTAF` stores the raw text there). -/
theorem c2_counterexample :
    (NewMETAR testRef "FOO").map
      (fun p => (p.1.RawData, p.1.NotDecodedTokens, p.2)) =
      some ("FOO", [], some "not valid message in input") ∧
    (NewTAF testRef "FOO").map (fun t => (t.RawData, t.NotDecodedTokens)) =
      some ("FOO", ["FOO"]) := by
  exact ⟨rfl, rfl⟩

/-- C2 amended: when the header matches neither a station nor an issue
time, `NewMETAR` returns the explicit error with a minimal record whose
not-decoded-tokens list is empty (the raw text is kept only in the raw-data
field), while `NewTAF` silently returns a minimal record whose
not-decoded-tokens list contains the entire raw text. -/
theorem c2_amended (rt : RefDate) (s : String)
    (hm : mapGet (metarHeaderMap s) "station" = "" ∧
      ((goParseYMDHMZ (rt.curYearStr ++ rt.curMonthStr ++
        mapGet (metarHeaderMap s) "time")).getD zeroDate).isZero = true)
    (ht : mapGet (tafHeaderMap s) "station" = "" ∧
      ((goParseYMDHMZ (rt.curYearStr ++ rt.curMonthStr ++
        mapGet (tafHeaderMap s) "time")).getD zeroDate).isZero = true) :
    (NewMETAR rt s).map (fun p => (p.1.RawData, p.1.NotDecodedTokens, p.2)) =
      some (s, [], some "not valid message in input") ∧
    (NewTAF rt s).map (fun t => (t.RawData, t.NotDecodedTokens)) = some (s, [s]) := by
  constructor
  · unfold NewMETAR
    dsimp only
    rw [if_pos ⟨hm.1, hm.2⟩]
    rfl
  · unfold NewTAF
    dsimp only
    rw [if_pos ⟨ht.1, ht.2⟩]
    rfl

/-- Witness for C2 amended at the header-less message "FOO". -/
theorem c2_amended_witness :
    (NewMETAR testRef "FOO").map
      (fun p => (p.1.RawData, p.1.NotDecodedTokens, p.2)) =
      some ("FOO", [], some "not valid message in input") ∧
    (NewTAF testRef "FOO").map (fun t => (t.RawData, t.NotDecodedTokens)) =
      some ("FOO", ["FOO"]) :=
  c2_amended testRef "FOO" ⟨by rfl, by rfl⟩ ⟨by rfl, by rfl⟩

/-- The TAF splitter's trend-marker predicate (taf.go:177). -/
def isTafMarker (tk : String) : Prop :=
  tk = TEMPO ∨ tk = BECMG ∨ hasPrefixGo tk "PROB" ∨ hasPrefixGo tk "FM"

/-- C6 counterexample: in a METAR, a PROB-prefixed token immediately
preceding a TEMPO start is neither a marker nor the group's start: the
METAR splitter slices at the exact TEMPO token, PROB40 falls to the body
and ends in not-decoded-tokens, and the decoded trend keeps probability 0. -/
theorem c6_counterexample :
    metarTrendScan ["ULLI", "270830Z", "9999", "PROB40", "TEMPO", "0500"] 2 5 6 [] =
      (4, [["TEMPO", "0500"]]) ∧
    (NewMETAR testRef "ULLI 270830Z 9999 PROB40 TEMPO 0500").map
      (fun p => (p.1.TREND.map fun tr => (tr.ttype, tr.Probability),
        p.1.NotDecodedTokens)) = some ([(TEMPO, 0)], ["PROB40"]) :=
  ⟨rfl, rfl⟩

/-- C6 amended: the TAF splitter recognizes as trend-group start markers
exactly TEMPO, BECMG, PROB-prefixed and FM-prefixed tokens, and whenever a
PROB-prefixed token immediately precedes a found marker, the slice starts
at the PROB token; the METAR splitter recognizes exactly TEMPO and BECMG,
with no PROB (or FM) handling: stated as the five step equations of the
two scanning loops. -/
theorem c6_amended :
    (∀ (tokens : List String) (count i tc : Nat) (trends : List (List String)),
      ¬ (i + 1 ≤ count) →
      ¬ (tokens.getD (i + 1) "" = TEMPO ∨ tokens.getD (i + 1) "" = BECMG) →
      metarTrendScan tokens count (i + 1) tc trends =
        metarTrendScan tokens count i tc trends) ∧
    (∀ (tokens : List String) (count i tc : Nat) (trends : List (List String)),
      ¬ (i + 1 ≤ count) →
      (tokens.getD (i + 1) "" = TEMPO ∨ tokens.getD (i + 1) "" = BECMG) →
      metarTrendScan tokens count (i + 1) tc trends =
        metarTrendScan tokens count i (i + 1)
          (((tokens.take tc).drop (i + 1)) :: trends)) ∧
    (∀ (tokens : List String) (sp i ep : Nat) (trends : List (List String)),
      ¬ (i + 1 ≤ sp) →
      isTafMarker (tokens.getD (i + 1) "") →
      ¬ hasPrefixGo (tokens.getD i "") "PROB" = true →
      tafTrendScan tokens sp (i + 1) ep trends =
        tafTrendScan tokens sp i (i + 1)
          (if tokens.getD (i + 1) "" = "RMK" then []
           else ((tokens.take ep).drop (i + 1)) :: trends)) ∧
    (∀ (tokens : List String) (sp j ep : Nat) (trends : List (List String)),
      ¬ (j + 2 ≤ sp) →
      isTafMarker (tokens.getD (j + 2) "") →
      hasPrefixGo (tokens.getD (j + 1) "") "PROB" = true →
      tafTrendScan tokens sp (j + 2) ep trends =
        tafTrendScan tokens sp j (j + 1)
          (if tokens.getD (j + 1) "" = "RMK" then []
           else ((tokens.take ep).drop (j + 1)) :: trends)) ∧
    (∀ (tokens : List String) (sp i ep : Nat) (trends : List (List String)),
      ¬ (i + 1 ≤ sp) →
      ¬ isTafMarker (tokens.getD (i + 1) "") →
      tafTrendScan tokens sp (i + 1) ep trends =
        tafTrendScan tokens sp i ep
          (if tokens.getD (i + 1) "" = "RMK" then [] else trends)) := by
  refine ⟨?_, ?_, ?_, ?_, ?_⟩
  · intro tokens count i tc trends h1 h2
    rw [metarTrendScan]
    simp only [h1, if_neg, h2]
    rfl
  · intro tokens count i tc trends h1 h2
    rw [metarTrendScan]
    simp only [h1, if_neg, h2, if_pos]
    rfl
  · intro tokens sp i ep trends h1 h2 h3
    rw [tafTrendScan]
    simp only [h1, if_neg]
    unfold isTafMarker at h2
    simp only [h2, if_pos, h3]
    rfl
  · intro tokens sp j ep trends h1 h2 h3
    rw [tafTrendScan]
    simp only [h1, if_neg]
    unfold isTafMarker at h2
    simp only [h2, if_pos, h3]
    rfl
  · intro tokens sp i ep trends h1 h2
    rw [tafTrendScan]
    unfold isTafMarker at h2
    simp only [h1, h2, if_neg]
    rfl

/-- Witness for C6 amended: the TAF PROB-shift step at a concrete token
list (marker TEMPO at index 2, PROB40 immediately before it). -/
theorem c6_amended_witness :
    tafTrendScan ["KJFK", "PROB40", "TEMPO"] 0 2 3 [] =
      tafTrendScan ["KJFK", "PROB40", "TEMPO"] 0 0 1
        (if List.getD ["KJFK", "PROB40", "TEMPO"] 1 "" = "RMK" then []
         else ((List.take 3 ["KJFK", "PROB40", "TEMPO"]).drop 1) :: []) :=
  c6_amended.2.2.2.1 ["KJFK", "PROB40", "TEMPO"] 0 0 3 []
    (by decide) (Or.inl rfl) (by rfl)

/-- C8: in every iteration of the body/trend grammar-walk loops the cursor
advances by at least one token — `decodeMetar`'s and `decodeTAF`'s steps
strictly increase the cursor (an unmatched token is appended to
not-decoded-tokens and the cursor moves by exactly one), and
`parseTrendData`'s body never moves the cursor back, so with its trailing
`count++` each iteration also advances by at least one; hence each walk
performs at most one iteration per token. -/
theorem c8_cursor_advances :
    (∀ (m : MetarMessage) (tokens : List String) (count : Nat)
      (r : MetarMessage × Nat), count < tokens.length →
      metarStep m tokens count = some r → count < r.2) ∧
    (∀ (rt : RefDate) (t : TAFMessage) (tokens : List String) (count : Nat)
      (r : TAFMessage × Nat), count < tokens.length →
      tafStep rt t tokens count = some r → count < r.2) ∧
    (∀ (rt : RefDate) (tokens : List String) (trend : Trend)
      (logs : List String) (count : Nat) (t : Trend) (l : List String)
      (c : Nat), trendStep rt tokens trend logs count = some (.cont t l c) →
      count < c + 1) :=
  ⟨fun m tokens count r hl h => metarStep_progress m tokens count r hl h,
   fun rt t tokens count r hl h => tafStep_progress rt t tokens count r hl h,
   fun rt tokens trend logs count t l c h =>
     Nat.lt_succ_of_le (trendStep_mono rt tokens trend logs count t l c h)⟩

/-- Witness for C8: one `decodeMetar` iteration on the unrecognized token
"XXXX" moves the cursor from 0 to 1. -/
theorem c8_witness : (0 : Nat) < 1 :=
  c8_cursor_advances.1 {} ["XXXX"] 0 ({ NotDecodedTokens := ["XXXX"] }, 1)
    (by decide) (by rfl)

/-- Two-digit zero-padded numeral (day/hour fields as they appear in
messages). -/
def natTo2 (n : Nat) : String := String.mk [Nat.digitChar (n / 10), Nat.digitChar (n % 10)]

/-- Four-digit zero-padded numeral (the year reference string). -/
def natTo4 (n : Nat) : String :=
  String.mk [Nat.digitChar (n / 1000), Nat.digitChar (n / 100 % 10),
    Nat.digitChar (n / 10 % 10), Nat.digitChar (n % 10)]

/-- Midnight (hour 00) of the calendar day after `(y, m, d)`. -/
def nextCalendarDay (y m d : Nat) : GoDate :=
  if d + 1 ≤ daysInMonth y m then ⟨y, m, d + 1, 0, 0⟩
  else if m + 1 ≤ 12 then ⟨y, m + 1, 1, 0, 0⟩
  else ⟨y + 1, 1, 1, 0, 0⟩

/-- A digit character produced by `Nat.digitChar` reads back as its value. -/
theorem digitVal_digitChar (x : Nat) (h : x < 10) :
    digitVal (Nat.digitChar x) = some x := by
  interval_cases x <;> rfl

/-- Two-digit numerals read back as their value. -/
theorem digitsToNat_two (a b : Nat) (ha : a < 10) (hb : b < 10) :
    digitsToNat [Nat.digitChar a, Nat.digitChar b] = some (a * 10 + b) := by
  unfold digitsToNat digitsToNat.go
  rw [digitVal_digitChar a ha]
  unfold digitsToNat.go
  rw [digitVal_digitChar b hb]
  show digitsToNat.go [] ((0 * 10 + a) * 10 + b) = some (a * 10 + b)
  unfold digitsToNat.go
  congr 1
  omega

/-- `natTo2` reads back as its value. -/
theorem digitsToNat_natTo2 (n : Nat) (h : n ≤ 99) :
    digitsToNat (natTo2 n).data = some n := by
  unfold natTo2
  rw [show (String.mk [Nat.digitChar (n / 10), Nat.digitChar (n % 10)]).data =
    [Nat.digitChar (n / 10), Nat.digitChar (n % 10)] from rfl]
  rw [digitsToNat_two (n / 10) (n % 10) (by omega) (by omega)]
  congr 1
  omega

/-- `natTo4` reads back as its value. -/
theorem digitsToNat_natTo4 (n : Nat) (h : n ≤ 9999) :
    digitsToNat (natTo4 n).data = some n := by
  unfold natTo4 digitsToNat digitsToNat.go
  rw [digitVal_digitChar (n / 1000) (by omega)]
  unfold digitsToNat.go
  rw [digitVal_digitChar (n / 100 % 10) (by omega)]
  unfold digitsToNat.go
  rw [digitVal_digitChar (n / 10 % 10) (by omega)]
  unfold digitsToNat.go
  rw [digitVal_digitChar (n % 10) (by omega)]
  show some _ = some n
  congr 1
  omega

/-- Adding one hour to 23:00 of a day yields the next day's midnight. -/
theorem addOneHour_23 (y m d : Nat) :
    GoDate.addOneHour ⟨y, m, d, 23, 0⟩ = nextCalendarDay y m d := by
  unfold GoDate.addOneHour nextCalendarDay
  dsimp only
  split
  · omega
  · rfl

/-- `mkGoDate` succeeds at hour 23 for an in-range date. -/
theorem mkGoDate_23 (y m d : Nat) (hm1 : 1 ≤ m) (hm2 : m ≤ 12) (hd1 : 1 ≤ d)
    (hd2 : d ≤ daysInMonth y m) :
    mkGoDate y m d 23 0 = some ⟨y, m, d, 23, 0⟩ := by
  unfold mkGoDate
  rw [if_pos]
  exact ⟨hm1, hm2, hd1, hd2, by omega, by omega⟩

/-- `time.Parse` of an eight-digit date prefix followed by hour 23. -/
theorem goParseYMDH_chars (a b c e f g h i : Char) (y m d : Nat)
    (hyv : digitsToNat [a, b, c, e] = some y) (hmv : digitsToNat [f, g] = some m)
    (hdv : digitsToNat [h, i] = some d) :
    goParseYMDH (String.mk [a, b, c, e, f, g, h, i] ++ "23") =
      mkGoDate y m d 23 0 := by
  show goParseYMDH (String.mk [a, b, c, e, f, g, h, i, '2', '3']) = _
  unfold goParseYMDH
  rw [show (String.mk [a, b, c, e, f, g, h, i, '2', '3']).data =
    [a, b, c, e, f, g, h, i, '2', '3'] from rfl]
  simp only [hyv, hmv, hdv, Option.bind_eq_bind, Option.some_bind]
  rfl

/-- `time.Parse` of an eight-digit date prefix followed by 23:00. -/
theorem goParseYMDHM_chars (a b c e f g h i : Char) (y m d : Nat)
    (hyv : digitsToNat [a, b, c, e] = some y) (hmv : digitsToNat [f, g] = some m)
    (hdv : digitsToNat [h, i] = some d) :
    goParseYMDHM (String.mk [a, b, c, e, f, g, h, i] ++ "2300") =
      mkGoDate y m d 23 0 := by
  show goParseYMDHM (String.mk [a, b, c, e, f, g, h, i, '2', '3', '0', '0']) = _
  unfold goParseYMDHM
  rw [show (String.mk [a, b, c, e, f, g, h, i, '2', '3', '0', '0']).data =
    [a, b, c, e, f, g, h, i, '2', '3', '0', '0'] from rfl]
  simp only [hyv, hmv, hdv, Option.bind_eq_bind, Option.some_bind]
  rfl

/-- `time.Parse` of an eight-digit date prefix followed by the literal hour
"24" fails: hour 24 is out of range for the layout. -/
theorem goParseYMDH_hour24 (a b c e f g h i : Char) (y m d : Nat)
    (hyv : digitsToNat [a, b, c, e] = some y) (hmv : digitsToNat [f, g] = some m)
    (hdv : digitsToNat [h, i] = some d) :
    goParseYMDH (String.mk [a, b, c, e, f, g, h, i] ++ "24") = none := by
  show goParseYMDH (String.mk [a, b, c, e, f, g, h, i, '2', '4']) = none
  unfold goParseYMDH
  rw [show (String.mk [a, b, c, e, f, g, h, i, '2', '4']).data =
    [a, b, c, e, f, g, h, i, '2', '4'] from rfl]
  simp only [hyv, hmv, hdv, Option.bind_eq_bind, Option.some_bind]
  show mkGoDate y m d 24 0 = none
  unfold mkGoDate
  rw [if_neg (by omega)]

/-- `time.Parse` of an eight-digit date prefix followed by hour "24" and a
two-digit minute field fails: hour 24 is out of range for the layout. -/
theorem goParseYMDHM_hour24 (a b c e f g h i n1 n2 : Char) (y m d mm : Nat)
    (hyv : digitsToNat [a, b, c, e] = some y) (hmv : digitsToNat [f, g] = some m)
    (hdv : digitsToNat [h, i] = some d)
    (hnv : digitsToNat [n1, n2] = some mm) :
    goParseYMDHM (String.mk [a, b, c, e, f, g, h, i] ++
      String.mk ['2', '4', n1, n2]) = none := by
  show goParseYMDHM (String.mk [a, b, c, e, f, g, h, i, '2', '4', n1, n2]) = none
  unfold goParseYMDHM
  rw [show (String.mk [a, b, c, e, f, g, h, i, '2', '4', n1, n2]).data =
    [a, b, c, e, f, g, h, i, '2', '4', n1, n2] from rfl]
  simp only [hyv, hmv, hdv, hnv, Option.bind_eq_bind, Option.some_bind]
  show mkGoDate y m d 24 mm = none
  unfold mkGoDate
  rw [if_neg (by omega)]

/-- C4 counterexample: at the test reference date, hour-24 time specs
outside the compliant sites do not resolve to next-midnight: "AT2400" and
"TL2430" fail the parse and leave the trend untouched (AT stays the zero
instant), the FROM bound "2524" of a validity window collapses to the
(month-advanced) zero date instead of 2023-05-26 00:00, and the FM-type
token "FM312400" stores the zero instant instead of 2023-06-01 00:00. -/
theorem c4_counterexample :
    Trend.setPeriodOfChanges testRef {} "AT2400" =
      ({}, ["time parse error AT: AT2400"], false) ∧
    Trend.setPeriodOfChanges testRef {} "TL2430" =
      ({}, ["time parse error TL: TL2430"], false) ∧
    TAFMessage.setTimeRange testRef { DateTime := ⟨2023, 5, 31, 8, 30⟩ }
        "2524" "0109" =
      some { DateTime := ⟨2023, 5, 31, 8, 30⟩, ValidFrom := ⟨1, 2, 1, 0, 0⟩,
             ValidTo := ⟨2023, 6, 1, 9, 0⟩ } ∧
    (⟨1, 2, 1, 0, 0⟩ : GoDate) ≠ nextCalendarDay 2023 5 25 ∧
    Trend.setTypeOfTrend testRef {} "FM312400" =
      ({ ttype := FMkw, FM := zeroDate }, true) ∧
    ({} : Trend).AT = zeroDate ∧
    zeroDate ≠ nextCalendarDay 2023 5 31 :=
  ⟨rfl, rfl, rfl, by decide, rfl, rfl, by decide⟩

/-- C4 amended: the hour-24 → next-midnight rule holds at exactly four
sites — `parseTime` (trend DDHH fields), `setTimeRange`'s ValidTo
computation (`tafValidToRaw`), the TL branch of `setPeriodOfChanges` for
the exact token "TL2400", and `addTempForecast`'s instant
(`tempFcstRawDate`): each substitutes hour 23 (minute 00) and adds one
hour, yielding hour 00 of the next calendar day. Outside them the code
contradicts the original universal claim: AT and FM period tokens with
hour 24 fail the parse and leave the field untouched, TL with hour 24 and
a nonzero minute fails likewise, the FROM bound of `setTimeRange` gets no
substitution (its raw parse fails, collapsing to the zero date), and an
FM-type trend token with hour 24 stores the zero instant. -/
theorem c4_amended (rt : RefDate) (y m d dr : Nat)
    (hy : rt.curYearStr = natTo4 y) (hyr : y ≤ 9999)
    (hm : rt.curMonthStr = natTo2 m) (hmr : 1 ≤ m ∧ m ≤ 12)
    (hdc : rt.curDayStr = natTo2 dr)
    (hdr : 1 ≤ d ∧ d ≤ daysInMonth y m)
    (hdrr : 1 ≤ dr ∧ dr ≤ daysInMonth y m) :
    (parseTime rt (natTo2 d ++ "24") = some (nextCalendarDay y m d, true) ∧
     tafValidToRaw rt (natTo2 d ++ "24") = some (nextCalendarDay y m d) ∧
     (∀ trend : Trend, Trend.setPeriodOfChanges rt trend "TL2400" =
       ({ trend with TL := nextCalendarDay y m dr }, [], true)) ∧
     tempFcstRawDate rt (natTo2 d ++ "24Z") = nextCalendarDay y m d) ∧
    (∀ trend : Trend, Trend.setPeriodOfChanges rt trend "AT2400" =
      (trend, ["time parse error AT: AT2400"], false)) ∧
    (∀ trend : Trend, Trend.setPeriodOfChanges rt trend "FM2400" =
      (trend, ["time parse error FM: FM2400"], false)) ∧
    (∀ trend : Trend, Trend.setPeriodOfChanges rt trend "TL2430" =
      (trend, ["time parse error TL: TL2430"], false)) ∧
    (goParseYMDH (rt.curYearStr ++ rt.curMonthStr ++ (natTo2 d ++ "24")) = none ∧
     ∀ (t : TAFMessage) (toStr : String) (vt : GoDate),
       tafValidToRaw rt toStr = some vt →
       TAFMessage.setTimeRange rt t (natTo2 d ++ "24") toStr =
         some { t with ValidFrom := monthAdvance t.DateTime.dayOf zeroDate,
                       ValidTo := monthAdvance t.DateTime.dayOf vt }) ∧
    (∀ trend : Trend, Trend.setTypeOfTrend rt trend ("FM" ++ natTo2 d ++ "2400") =
      ({ trend with ttype := FMkw, FM := zeroDate }, true)) := by
  have hd99 : d ≤ 99 := by
    have := hdr.2
    unfold daysInMonth at this
    split at this <;> first | omega | (split at this <;> omega)
  have hparse : goParseYMDH (rt.curYearStr ++ rt.curMonthStr ++ (natTo2 d ++ "23")) =
      some ⟨y, m, d, 23, 0⟩ := by
    rw [hy, hm]
    rw [show natTo4 y ++ natTo2 m ++ (natTo2 d ++ "23") =
      String.mk [Nat.digitChar (y / 1000), Nat.digitChar (y / 100 % 10),
        Nat.digitChar (y / 10 % 10), Nat.digitChar (y % 10),
        Nat.digitChar (m / 10), Nat.digitChar (m % 10),
        Nat.digitChar (d / 10), Nat.digitChar (d % 10)] ++ "23" from rfl]
    rw [goParseYMDH_chars _ _ _ _ _ _ _ _ y m d
      (digitsToNat_natTo4 y hyr) (digitsToNat_natTo2 m (by omega))
      (digitsToNat_natTo2 d hd99)]
    exact mkGoDate_23 y m d hmr.1 hmr.2 hdr.1 hdr.2
  have hdr99 : dr ≤ 99 := by
    have := hdrr.2
    unfold daysInMonth at this
    split at this <;> first | omega | (split at this <;> omega)
  have hparseM : goParseYMDHM (rt.curYearStr ++ rt.curMonthStr ++ rt.curDayStr ++ "2300") =
      some ⟨y, m, dr, 23, 0⟩ := by
    rw [hy, hm, hdc]
    rw [show natTo4 y ++ natTo2 m ++ natTo2 dr ++ "2300" =
      String.mk [Nat.digitChar (y / 1000), Nat.digitChar (y / 100 % 10),
        Nat.digitChar (y / 10 % 10), Nat.digitChar (y % 10),
        Nat.digitChar (m / 10), Nat.digitChar (m % 10),
        Nat.digitChar (dr / 10), Nat.digitChar (dr % 10)] ++ "2300" from rfl]
    rw [goParseYMDHM_chars _ _ _ _ _ _ _ _ y m dr
      (digitsToNat_natTo4 y hyr) (digitsToNat_natTo2 m (by omega))
      (digitsToNat_natTo2 dr hdr99)]
    exact mkGoDate_23 y m dr hmr.1 hmr.2 hdrr.1 hdrr.2
  have hparse2 : goParseYMDH (rt.curYearStr ++ rt.curMonthStr ++ natTo2 d ++ "23") =
      some ⟨y, m, d, 23, 0⟩ := by
    rw [hy, hm]
    rw [show natTo4 y ++ natTo2 m ++ natTo2 d ++ "23" =
      String.mk [Nat.digitChar (y / 1000), Nat.digitChar (y / 100 % 10),
        Nat.digitChar (y / 10 % 10), Nat.digitChar (y % 10),
        Nat.digitChar (m / 10), Nat.digitChar (m % 10),
        Nat.digitChar (d / 10), Nat.digitChar (d % 10)] ++ "23" from rfl]
    rw [goParseYMDH_chars _ _ _ _ _ _ _ _ y m d
      (digitsToNat_natTo4 y hyr) (digitsToNat_natTo2 m (by omega))
      (digitsToNat_natTo2 d hd99)]
    exact mkGoDate_23 y m d hmr.1 hmr.2 hdr.1 hdr.2

  have hpM24ref : goParseYMDHM (rt.curYearStr ++ rt.curMonthStr ++ rt.curDayStr ++
      "2400") = none := by
    rw [hy, hm, hdc]
    rw [show natTo4 y ++ natTo2 m ++ natTo2 dr ++ "2400" =
      String.mk [Nat.digitChar (y / 1000), Nat.digitChar (y / 100 % 10),
        Nat.digitChar (y / 10 % 10), Nat.digitChar (y % 10),
        Nat.digitChar (m / 10), Nat.digitChar (m % 10),
        Nat.digitChar (dr / 10), Nat.digitChar (dr % 10)] ++
        String.mk ['2', '4', '0', '0'] from rfl]
    exact goParseYMDHM_hour24 _ _ _ _ _ _ _ _ _ _ y m dr 0
      (digitsToNat_natTo4 y hyr) (digitsToNat_natTo2 m (by omega))
      (digitsToNat_natTo2 dr hdr99) rfl
  have hpM2430ref : goParseYMDHM (rt.curYearStr ++ rt.curMonthStr ++ rt.curDayStr ++
      "2430") = none := by
    rw [hy, hm, hdc]
    rw [show natTo4 y ++ natTo2 m ++ natTo2 dr ++ "2430" =
      String.mk [Nat.digitChar (y / 1000), Nat.digitChar (y / 100 % 10),
        Nat.digitChar (y / 10 % 10), Nat.digitChar (y % 10),
        Nat.digitChar (m / 10), Nat.digitChar (m % 10),
        Nat.digitChar (dr / 10), Nat.digitChar (dr % 10)] ++
        String.mk ['2', '4', '3', '0'] from rfl]
    exact goParseYMDHM_hour24 _ _ _ _ _ _ _ _ _ _ y m dr 30
      (digitsToNat_natTo4 y hyr) (digitsToNat_natTo2 m (by omega))
      (digitsToNat_natTo2 dr hdr99) rfl
  have hp24from : goParseYMDH (rt.curYearStr ++ rt.curMonthStr ++
      (natTo2 d ++ "24")) = none := by
    rw [hy, hm]
    rw [show natTo4 y ++ natTo2 m ++ (natTo2 d ++ "24") =
      String.mk [Nat.digitChar (y / 1000), Nat.digitChar (y / 100 % 10),
        Nat.digitChar (y / 10 % 10), Nat.digitChar (y % 10),
        Nat.digitChar (m / 10), Nat.digitChar (m % 10),
        Nat.digitChar (d / 10), Nat.digitChar (d % 10)] ++ "24" from rfl]
    exact goParseYMDH_hour24 _ _ _ _ _ _ _ _ y m d
      (digitsToNat_natTo4 y hyr) (digitsToNat_natTo2 m (by omega))
      (digitsToNat_natTo2 d hd99)
  have hpM24d : goParseYMDHM (rt.curYearStr ++ rt.curMonthStr ++
      (natTo2 d ++ "2400")) = none := by
    rw [hy, hm]
    rw [show natTo4 y ++ natTo2 m ++ (natTo2 d ++ "2400") =
      String.mk [Nat.digitChar (y / 1000), Nat.digitChar (y / 100 % 10),
        Nat.digitChar (y / 10 % 10), Nat.digitChar (y % 10),
        Nat.digitChar (m / 10), Nat.digitChar (m % 10),
        Nat.digitChar (d / 10), Nat.digitChar (d % 10)] ++
        String.mk ['2', '4', '0', '0'] from rfl]
    exact goParseYMDHM_hour24 _ _ _ _ _ _ _ _ _ _ y m d 0
      (digitsToNat_natTo4 y hyr) (digitsToNat_natTo2 m (by omega))
      (digitsToNat_natTo2 d hd99) rfl
  refine ⟨⟨?_, ?_, ?_, ?_⟩, ?_, ?_, ?_, ⟨hp24from, ?_⟩, ?_⟩
  · unfold parseTime
    rw [show strFrom (natTo2 d ++ "24") 2 = some "24" from rfl]
    dsimp only
    rw [if_pos rfl]
    rw [show strSub (natTo2 d ++ "24") 0 2 ++ "23" = natTo2 d ++ "23" from rfl]
    rw [hparse]
    rw [show (some (⟨y, m, d, 23, 0⟩ : GoDate)).getD zeroDate = ⟨y, m, d, 23, 0⟩ from rfl]
    rw [addOneHour_23]
    rfl
  · unfold tafValidToRaw
    rw [show strFrom (natTo2 d ++ "24") 2 = some "24" from rfl]
    dsimp only
    rw [if_pos rfl]
    rw [show strSub (natTo2 d ++ "24") 0 2 = natTo2 d from rfl]
    rw [hparse2]
    rw [show (some (⟨y, m, d, 23, 0⟩ : GoDate)).getD zeroDate = ⟨y, m, d, 23, 0⟩ from rfl]
    rw [addOneHour_23]
  · intro trend
    unfold Trend.setPeriodOfChanges
    dsimp only
    rw [show hasPrefixGo "TL2400" "AT" = false from rfl]
    rw [show hasPrefixGo "TL2400" "FM" = false from rfl]
    rw [show hasPrefixGo "TL2400" "TL" = true from rfl]
    simp only [Bool.false_eq_true, if_false, if_true]
    rw [show String.mk (("TL2400").data.drop 2) = "2400" from rfl]
    rw [if_pos rfl]
    rw [hparseM]
    rw [show Option.map GoDate.addOneHour (some (⟨y, m, dr, 23, 0⟩ : GoDate)) =
      some (GoDate.addOneHour ⟨y, m, dr, 23, 0⟩) from rfl]
    rw [addOneHour_23]
  · unfold tempFcstRawDate
    rw [show String.mk ((natTo2 d ++ "24Z").data.drop 2) = "24Z" from rfl]
    rw [if_pos rfl]
    rw [show strSub (natTo2 d ++ "24Z") 0 2 = natTo2 d from rfl]
    rw [hparse2]
    rw [show (some (⟨y, m, d, 23, 0⟩ : GoDate)).getD zeroDate = ⟨y, m, d, 23, 0⟩ from rfl]
    rw [addOneHour_23]
  · intro trend
    unfold Trend.setPeriodOfChanges
    dsimp only
    rw [show String.mk (("AT2400").data.drop 2) = "2400" from rfl]
    rw [show hasPrefixGo "AT2400" "AT" = true from rfl]
    rw [show hasPrefixGo "AT2400" "FM" = false from rfl]
    rw [show hasPrefixGo "AT2400" "TL" = false from rfl]
    simp only [Bool.false_eq_true, if_false, if_true]
    rw [hpM24ref]
    rfl
  · intro trend
    unfold Trend.setPeriodOfChanges
    dsimp only
    rw [show String.mk (("FM2400").data.drop 2) = "2400" from rfl]
    rw [show hasPrefixGo "FM2400" "AT" = false from rfl]
    rw [show hasPrefixGo "FM2400" "FM" = true from rfl]
    rw [show hasPrefixGo "FM2400" "TL" = false from rfl]
    simp only [Bool.false_eq_true, if_false, if_true]
    rw [hpM24ref]
    rfl
  · intro trend
    unfold Trend.setPeriodOfChanges
    dsimp only
    rw [show String.mk (("TL2430").data.drop 2) = "2430" from rfl]
    rw [show hasPrefixGo "TL2430" "AT" = false from rfl]
    rw [show hasPrefixGo "TL2430" "FM" = false from rfl]
    rw [show hasPrefixGo "TL2430" "TL" = true from rfl]
    simp only [Bool.false_eq_true, if_false, if_true]
    rw [if_neg (show ¬("2430" : String) = "2400" by decide)]
    rw [hpM2430ref]
    rfl
  · intro t toStr vt hvt
    unfold TAFMessage.setTimeRange
    dsimp only
    rw [hp24from, hvt]
    rfl
  · intro trend
    unfold Trend.setTypeOfTrend
    rw [if_neg]
    · rw [if_pos (show hasPrefixGo ("FM" ++ natTo2 d ++ "2400") "FM" = true from rfl)]
      dsimp only
      rw [show String.mk ((("FM" ++ natTo2 d ++ "2400")).data.drop 2) =
        natTo2 d ++ "2400" from rfl]
      rw [hpM24d]
      rfl
    · have hlen8 : ("FM" ++ natTo2 d ++ "2400").length = 8 := rfl
      rintro (h | h) <;>
        (have hl := congrArg String.length h
         rw [hlen8] at hl
         exact absurd hl (by decide))

/-- Witness for C4 amended at the test reference date 2023-05-31 with day
25: "2524" resolves to 2023-05-26 00:00 and "TL2400" to 2023-06-01 00:00,
while "AT2400" fails and leaves the trend unchanged. -/
theorem c4_amended_witness :
    (parseTime testRef (natTo2 25 ++ "24") = some (nextCalendarDay 2023 5 25, true) ∧
     Trend.setPeriodOfChanges testRef {} "TL2400" =
       (({ TL := nextCalendarDay 2023 5 31 } : Trend), [], true)) ∧
    Trend.setPeriodOfChanges testRef {} "AT2400" =
      ({}, ["time parse error AT: AT2400"], false) :=
  ⟨⟨(c4_amended testRef 2023 5 25 31 (by rfl) (by decide) (by rfl)
      (by constructor <;> decide) (by rfl) (by constructor <;> decide)
      (by constructor <;> decide)).1.1,
    (c4_amended testRef 2023 5 25 31 (by rfl) (by decide) (by rfl)
      (by constructor <;> decide) (by rfl) (by constructor <;> decide)
      (by constructor <;> decide)).1.2.2.1 {}⟩,
   (c4_amended testRef 2023 5 25 31 (by rfl) (by decide) (by rfl)
      (by constructor <;> decide) (by rfl) (by constructor <;> decide)
      (by constructor <;> decide)).2.1 {}⟩

/-- C5 counterexample: a TAF issued on day 31 whose trend window names day
01 (numerically less than 31). The TAF validity bounds do get the
next-month advance (ValidTo becomes June 1), but the trend's DDHH/DDHH
window stays at May 1 — it is not advanced by one calendar month, contrary
to the claim's inclusion of trend windows. -/
theorem c5_counterexample :
    (NewTAF testRef "TAF ULLI 310830Z 3109/0109 CAVOK TEMPO 0112/0118 CAVOK").map
      (fun t => (t.DateTime.dayOf, t.ValidFrom, t.ValidTo,
        t.TREND.map fun tr => (tr.FM, tr.TL))) =
      some (31, ⟨2023, 5, 31, 9, 0⟩, ⟨2023, 6, 1, 9, 0⟩,
        [(⟨2023, 5, 1, 12, 0⟩, ⟨2023, 5, 1, 18, 0⟩)]) ∧
    GoDate.dayOf ⟨2023, 5, 1, 12, 0⟩ < 31 ∧
    (⟨2023, 5, 1, 12, 0⟩ : GoDate) ≠ GoDate.addOneMonth ⟨2023, 5, 1, 12, 0⟩ :=
  ⟨rfl, by decide, by decide⟩

/-- C5 amended: the next-month rule — if the resolved day-of-month is less
than the issue instant's day, advance by exactly one calendar month
(`monthAdvance`) — applies to the TAF validity window (`setTimeRange`, both
bounds) and to temperature forecasts (`addTempForecast`), but not to the
trend DDHH/DDHH window: `parseTime`, and with it the whole trend window
resolver `Trend.setDateTime`, is independent of the reference day, so no
month advance can occur there. -/
theorem c5_amended :
    (∀ (rt : RefDate) (t t' : TAFMessage) (fromStr toStr : String),
      TAFMessage.setTimeRange rt t fromStr toStr = some t' →
      t'.ValidFrom = monthAdvance t.DateTime.dayOf
        ((goParseYMDH (rt.curYearStr ++ rt.curMonthStr ++ fromStr)).getD zeroDate) ∧
      ∃ vt, tafValidToRaw rt toStr = some vt ∧
        t'.ValidTo = monthAdvance t.DateTime.dayOf vt) ∧
    (∀ (rt : RefDate) (t : TAFMessage) (input : String) (ms : List String),
      findStringSubmatch true tempForecastRE 4 input = some ms →
      ∃ e, (TAFMessage.addTempForecast rt t input).1.Temperature =
          t.Temperature ++ [e] ∧
        e.DateTime = monthAdvance t.DateTime.dayOf
          (tempFcstRawDate rt (ms.getD 4 ""))) ∧
    (∀ (y m d1 d2 s : String), parseTime ⟨y, m, d1⟩ s = parseTime ⟨y, m, d2⟩ s) ∧
    (∀ (y m d1 d2 : String) (trend : Trend) (input : String),
      Trend.setDateTime ⟨y, m, d1⟩ trend input =
      Trend.setDateTime ⟨y, m, d2⟩ trend input) := by
  refine ⟨?_, ?_, ?_, ?_⟩
  · intro rt t t' fromStr toStr h
    unfold TAFMessage.setTimeRange at h
    dsimp only at h
    split at h
    · cases h
    next vt hvt =>
      cases h
      exact ⟨rfl, vt, hvt, rfl⟩
  · intro rt t input ms h
    unfold TAFMessage.addTempForecast
    rw [h]
    dsimp only
    exact ⟨_, rfl, rfl⟩
  · intro y m d1 d2 s
    rfl
  · intro y m d1 d2 trend input
    rfl

/-- Witness for C5 amended: `setTimeRange` at issue day 31 with validity
"3109/0109" advances ValidTo into June. -/
theorem c5_amended_witness :
    ∃ vt, tafValidToRaw testRef "0109" = some vt ∧
      ({ DateTime := ⟨2023, 5, 31, 8, 30⟩, ValidFrom := ⟨2023, 5, 31, 9, 0⟩,
         ValidTo := ⟨2023, 6, 1, 9, 0⟩ } : TAFMessage).ValidTo =
        monthAdvance (GoDate.dayOf ⟨2023, 5, 31, 8, 30⟩) vt :=
  (c5_amended.1 testRef { DateTime := ⟨2023, 5, 31, 8, 30⟩ }
    { DateTime := ⟨2023, 5, 31, 8, 30⟩, ValidFrom := ⟨2023, 5, 31, 9, 0⟩,
      ValidTo := ⟨2023, 6, 1, 9, 0⟩ } "3109" "0109" (by rfl)).2

/-! ## RawData preservation (towards idempotence of re-decoding) -/

theorem wcRepeatGo_pres {α β : Type} (f : α → β) (step : α → String → α × Bool)
    (tokens : List String) (hstep : ∀ a tok, f (step a tok).1 = f a) (fuel : Nat) :
    ∀ (t : α) (count : Nat), f (wcRepeatGo step tokens fuel t count).1 = f t := by
  induction fuel with
  | zero => intro t count; rfl
  | succ fuel ih =>
    intro t count
    rw [wcRepeatGo]
    split
    next h =>
      dsimp only
      split
      next hr => rw [ih (step t (tokens.getD count "")).1 (count + 1), hstep]
      next hr => exact hstep t (tokens.getD count "")
    next h => rfl

theorem wcRepeat_pres {α β : Type} (f : α → β) (step : α → String → α × Bool)
    (t : α) (tokens : List String) (count : Nat)
    (hstep : ∀ a tok, f (step a tok).1 = f a) :
    f (wcRepeat step t tokens count).1 = f t :=
  wcRepeatGo_pres f step tokens hstep (tokens.length + 1 - count) t count

theorem dwcVis_pres {α β : Type} (f : α → β) (ops : WCOps α) (t : α)
    (count : Nat) (tokens : List String)
    (h1 : ∀ a toks, f (ops.parseVisibility a toks).1 = f a) :
    f (dwcVis ops t count tokens).1 = f t := by
  unfold dwcVis
  split
  · exact h1 t (tokens.drop count)
  · rfl

theorem dwcVV_pres {α β : Type} (f : α → β) (ops : WCOps α) (t : α)
    (count : Nat) (tokens : List String)
    (h3 : ∀ a tok, f (ops.setVerticalVisibility a tok).1 = f a) :
    f (dwcVV ops t count tokens).1 = f t := by
  unfold dwcVV
  split
  · dsimp only
    split
    · exact h3 t (tokens.getD count "")
    · exact h3 t (tokens.getD count "")
  · rfl

theorem decodeWeatherCondition_pres {α β : Type} (f : α → β) (ops : WCOps α)
    (t : α) (count : Nat) (tokens : List String)
    (h1 : ∀ a toks, f (ops.parseVisibility a toks).1 = f a)
    (h2 : ∀ a tok, f (ops.appendPhenomena a tok).1 = f a)
    (h3 : ∀ a tok, f (ops.setVerticalVisibility a tok).1 = f a)
    (h4 : ∀ a tok, f (ops.appendCloud a tok).1 = f a) :
    f (decodeWeatherCondition ops t count tokens).1 = f t := by
  unfold decodeWeatherCondition
  dsimp only
  rw [wcRepeat_pres f ops.appendCloud _ tokens _ h4]
  rw [dwcVV_pres f ops _ _ tokens h3]
  rw [wcRepeat_pres f ops.appendPhenomena _ tokens _ h2]
  rw [dwcVis_pres f ops t count tokens h1]

theorem setTemperature_raw (m : MetarMessage) (tok : String) :
    ((m.setTemperature tok).1).RawData = m.RawData := by
  unfold MetarMessage.setTemperature
  split <;> rfl

theorem setAltimetr_raw (m : MetarMessage) (tok : String) :
    ((m.setAltimetr tok).1).RawData = m.RawData := by
  unfold MetarMessage.setAltimetr
  split
  · rfl
  · split <;> rfl

theorem setVerticalVisibility_raw (m : MetarMessage) (tok : String) :
    ((m.setVerticalVisibility tok).1).RawData = m.RawData := by
  unfold MetarMessage.setVerticalVisibility
  split <;> rfl

theorem appendRunwayVisualRange_raw (m : MetarMessage) (tok : String) :
    ((m.appendRunwayVisualRange tok).1).RawData = m.RawData := by
  unfold MetarMessage.appendRunwayVisualRange
  split <;> rfl

theorem appendRunwayState_raw (m : MetarMessage) (tok : String) :
    ((m.appendRunwayState tok).1).RawData = m.RawData := by
  unfold MetarMessage.appendRunwayState
  split
  · rfl
  · split <;> rfl

theorem mRecentStep_raw (m : MetarMessage) (tok : String) :
    ((mRecentStep m tok).1).RawData = m.RawData := rfl

theorem dwcSlashes_raw (m : MetarMessage) (count : Nat) (tokens : List String) :
    ((dwcSlashes m count tokens).1).RawData = m.RawData := by
  unfold dwcSlashes
  split <;> rfl

theorem metarWC_vis_raw (a : MetarMessage) (toks : List String) :
    ((metarWCOps.parseVisibility a toks).1).RawData = a.RawData := rfl

theorem metarWC_ph_raw (a : MetarMessage) (tok : String) :
    ((metarWCOps.appendPhenomena a tok).1).RawData = a.RawData := rfl

theorem metarWC_cl_raw (a : MetarMessage) (tok : String) :
    ((metarWCOps.appendCloud a tok).1).RawData = a.RawData := rfl

theorem setMetarWeatherCondition_raw (m : MetarMessage) (count : Nat)
    (tokens : List String) :
    ((setMetarWeatherCondition m count tokens).1).RawData = m.RawData := by
  unfold setMetarWeatherCondition
  dsimp only
  rw [wcRepeat_pres MetarMessage.RawData metarWCOps.appendCloud _ tokens _ metarWC_cl_raw]
  rw [dwcVV_pres MetarMessage.RawData metarWCOps _ _ tokens setVerticalVisibility_raw]
  rw [wcRepeat_pres MetarMessage.RawData metarWCOps.appendPhenomena _ tokens _ metarWC_ph_raw]
  rw [dwcSlashes_raw]
  rw [wcRepeat_pres MetarMessage.RawData MetarMessage.appendRunwayVisualRange _ tokens _
    appendRunwayVisualRange_raw]
  rw [dwcVis_pres MetarMessage.RawData metarWCOps m count tokens metarWC_vis_raw]

theorem appendWindShearsLoop_raw (tokens : List String) (fuel : Nat) :
    ∀ (m : MetarMessage) (count : Nat) (ok : Bool) (tu : Nat)
      (r : MetarMessage × Bool × Nat),
      appendWindShearsLoop tokens fuel m count ok tu = some r →
      r.1.RawData = m.RawData := by
  induction fuel with
  | zero => intro m count ok tu r h; cases h
  | succ fuel ih =>
    intro m count ok tu r h
    rw [appendWindShearsLoop] at h
    split at h
    · split at h
      next => cases h; rfl
      next ms hms =>
        split at h
        next =>
          dsimp only at h
          rw [ih _ _ _ _ r h]
        next =>
          split at h
          next =>
            dsimp only at h
            rw [ih _ _ _ _ r h]
          next => cases h
    · cases h

theorem metarStepCavok_raw (m : MetarMessage) (tokens : List String)
    (count : Nat) (tk : String) :
    ((metarStepCavok m tokens count tk).1).RawData = m.RawData := by
  unfold metarStepCavok
  split
  · rfl
  · exact setMetarWeatherCondition_raw m count tokens

theorem metarStepHead_raw (m : MetarMessage) (tokens : List String)
    (count : Nat) (r : MetarMessage × Nat)
    (h : metarStepHead m tokens count = some r) : r.1.RawData = m.RawData := by
  unfold metarStepHead at h
  dsimp only at h
  split at h
  · cases h
  next tk htk =>
    cases h
    exact metarStepCavok_raw _ tokens _ tk

theorem metarStepTemp_raw (m : MetarMessage) (tokens : List String)
    (count : Nat) (r : MetarMessage × Nat)
    (h : metarStepTemp m tokens count = some r) : r.1.RawData = m.RawData := by
  unfold metarStepTemp at h
  split at h
  · cases h
  next tk htk =>
    cases h
    exact setTemperature_raw m tk

theorem metarStepAlt_raw (m : MetarMessage) (tokens : List String)
    (count : Nat) (r : MetarMessage × Nat)
    (h : metarStepAlt m tokens count = some r) : r.1.RawData = m.RawData := by
  unfold metarStepAlt at h
  split at h
  · cases h
  next tk htk =>
    cases h
    exact setAltimetr_raw m tk

theorem metarStepRest_raw (m : MetarMessage) (tokens : List String)
    (count : Nat) (r : MetarMessage × Nat)
    (h : metarStepRest m tokens count = some r) : r.1.RawData = m.RawData := by
  unfold metarStepRest at h
  dsimp only at h
  split at h
  · cases h
  next ws hws =>
    have hws2 := appendWindShearsLoop_raw tokens _ _ _ _ _ ws hws
    have hrp := wcRepeat_pres MetarMessage.RawData mRecentStep m tokens count mRecentStep_raw
    have hrs := wcRepeat_pres MetarMessage.RawData MetarMessage.appendRunwayState ws.1 tokens
      (wsAdvance (wcRepeat mRecentStep m tokens count).2 ws) appendRunwayState_raw
    split at h
    next => cases h; dsimp only; rw [hrs, hws2, hrp]
    next => cases h; rw [hrs, hws2, hrp]

theorem metarStep_raw (m : MetarMessage) (tokens : List String) (count : Nat)
    (r : MetarMessage × Nat) (h : metarStep m tokens count = some r) :
    r.1.RawData = m.RawData := by
  unfold metarStep at h
  rw [Option.bind_eq_some] at h
  obtain ⟨r1, hr1, h⟩ := h
  rw [Option.bind_eq_some] at h
  obtain ⟨r2, hr2, h⟩ := h
  rw [Option.bind_eq_some] at h
  obtain ⟨r3, hr3, h⟩ := h
  rw [metarStepRest_raw r3.1 tokens r3.2 r h,
    metarStepAlt_raw r2.1 tokens r2.2 r3 hr3,
    metarStepTemp_raw r1.1 tokens r1.2 r2 hr2,
    metarStepHead_raw m tokens count r1 hr1]

theorem decodeMetarLoopGo_raw (tokens : List String) (fuel : Nat) :
    ∀ (m m' : MetarMessage) (count : Nat),
      decodeMetarLoopGo tokens fuel m count = some m' →
      m'.RawData = m.RawData := by
  induction fuel with
  | zero => intro m m' count h; cases h
  | succ fuel ih =>
    intro m m' count h
    rw [decodeMetarLoopGo] at h
    split at h
    · split at h
      · cases h
      next r hr =>
        rw [ih r.1 m' r.2 h]
        exact metarStep_raw m tokens count r hr
    · cases h; rfl

theorem decodeMetar_raw (m m' : MetarMessage) (tokens : List String)
    (h : m.decodeMetar tokens = some m') : m'.RawData = m.RawData := by
  unfold MetarMessage.decodeMetar at h
  split at h
  · cases h
  next last hlast =>
    split at h
    · unfold decodeMetarLoop at h
      rw [decodeMetarLoopGo_raw tokens.dropLast _ _ m' 0 h]
    · unfold decodeMetarLoop at h
      exact decodeMetarLoopGo_raw tokens _ m m' 0 h

theorem NewMETAR_raw (rt : RefDate) (s : String) (m : MetarMessage)
    (e : Option String) (h : NewMETAR rt s = some (m, e)) : m.RawData = s := by
  unfold NewMETAR at h
  dsimp only at h
  split at h
  · cases h; rfl
  · split at h
    · cases h; rfl
    · split at h
      · cases h
      next tl htl =>
        split at h
        · cases h
        next rmks hrm =>
          split at h
          · cases h
          next m2 hm2 =>
            cases h
            rw [decodeMetar_raw _ m _ hm2]

theorem tafWC_vis_raw (a : TAFMessage) (toks : List String) :
    ((tafWCOps.parseVisibility a toks).1).RawData = a.RawData := rfl

theorem tafWC_ph_raw (a : TAFMessage) (tok : String) :
    ((tafWCOps.appendPhenomena a tok).1).RawData = a.RawData := rfl

theorem tafWC_cl_raw (a : TAFMessage) (tok : String) :
    ((tafWCOps.appendCloud a tok).1).RawData = a.RawData := rfl

theorem tafSetVV_raw (a : TAFMessage) (tok : String) :
    ((a.setVerticalVisibility tok).1).RawData = a.RawData := by
  unfold TAFMessage.setVerticalVisibility
  split
  · rfl
  · split <;> rfl

theorem addTempForecast_raw (rt : RefDate) (a : TAFMessage) (tok : String) :
    ((a.addTempForecast rt tok).1).RawData = a.RawData := by
  unfold TAFMessage.addTempForecast
  split <;> rfl

theorem tafStepCavok_raw (t : TAFMessage) (tokens : List String) (count : Nat)
    (tk : String) : ((tafStepCavok t tokens count tk).1).RawData = t.RawData := by
  unfold tafStepCavok
  split
  · rfl
  · exact decodeWeatherCondition_pres TAFMessage.RawData tafWCOps t count tokens
      tafWC_vis_raw tafWC_ph_raw tafSetVV_raw tafWC_cl_raw

theorem tafStepHead_raw (t : TAFMessage) (tokens : List String) (count : Nat)
    (r : TAFMessage × Nat) (h : tafStepHead t tokens count = some r) :
    r.1.RawData = t.RawData := by
  unfold tafStepHead at h
  split at h
  · cases h
  next tk htk =>
    dsimp only at h
    split at h
    · cases h
    next tk2 htk2 =>
      cases h
      exact tafStepCavok_raw _ tokens _ tk2

theorem tafStepTail_raw (rt : RefDate) (t : TAFMessage) (tokens : List String)
    (count : Nat) : ((tafStepTail rt t tokens count).1).RawData = t.RawData := by
  unfold tafStepTail
  dsimp only
  have hw := wcRepeat_pres TAFMessage.RawData (tafTempStep rt) t tokens count
    (fun a tok => addTempForecast_raw rt a tok)
  split
  · dsimp only
    exact hw
  · exact hw

theorem tafStep_raw (rt : RefDate) (t : TAFMessage) (tokens : List String)
    (count : Nat) (r : TAFMessage × Nat) (h : tafStep rt t tokens count = some r) :
    r.1.RawData = t.RawData := by
  unfold tafStep at h
  rw [Option.map_eq_some'] at h
  obtain ⟨r1, hr1, h⟩ := h
  subst h
  rw [tafStepTail_raw rt r1.1 tokens r1.2]
  exact tafStepHead_raw t tokens count r1 hr1

theorem decodeTAFLoopGo_raw (rt : RefDate) (tokens : List String) (fuel : Nat) :
    ∀ (t t' : TAFMessage) (count : Nat),
      decodeTAFLoopGo rt tokens fuel t count = some t' →
      t'.RawData = t.RawData := by
  induction fuel with
  | zero => intro t t' count h; cases h
  | succ fuel ih =>
    intro t t' count h
    rw [decodeTAFLoopGo] at h
    split at h
    · split at h
      · cases h
      next r hr =>
        rw [ih r.1 t' r.2 h]
        exact tafStep_raw rt t tokens count r hr
    · cases h; rfl

theorem setTimeRange_raw (rt : RefDate) (t t' : TAFMessage)
    (fromStr toStr : String) (h : t.setTimeRange rt fromStr toStr = some t') :
    t'.RawData = t.RawData := by
  unfold TAFMessage.setTimeRange at h
  dsimp only at h
  split at h
  · cases h
  · cases h; rfl

theorem findTrendsInMessage_raw (rt : RefDate) (t : TAFMessage)
    (tokens : List String) (sp : Nat) (r : TAFMessage × Nat)
    (h : t.findTrendsInMessage rt tokens sp = some r) :
    r.1.RawData = t.RawData := by
  unfold TAFMessage.findTrendsInMessage at h
  dsimp only at h
  split at h
  · cases h
  · cases h; rfl

theorem NewTAF_raw (rt : RefDate) (s : String) (t : TAFMessage)
    (h : NewTAF rt s = some t) : t.RawData = s := by
  unfold NewTAF at h
  dsimp only at h
  split at h
  · cases h; rfl
  · split at h
    · cases h; rfl
    · split at h
      · cases h
      next t2 ht2 =>
        split at h
        · cases h
          exact setTimeRange_raw rt _ t _ _ ht2
        · split at h
          · cases h
          next te hte =>
            split at h
            · unfold TAFMessage.decodeTAF at h
              unfold decodeTAFLoop at h
              rw [decodeTAFLoopGo_raw rt _ _ _ t 0 h]
              rw [findTrendsInMessage_raw rt t2 _ _ te hte]
              exact setTimeRange_raw rt _ t2 _ _ ht2
            · cases h

/-- C9: re-decoding a record's own raw text yields an identical result,
for both decoders, given the same reference date (decoding never modifies
the raw-data field, and the decode is a pure function of the text and the
reference date). -/
theorem c9_idempotent :
    (∀ (rt : RefDate) (s : String) (m : MetarMessage) (e : Option String),
      NewMETAR rt s = some (m, e) → NewMETAR rt m.RAW = some (m, e)) ∧
    (∀ (rt : RefDate) (s : String) (t : TAFMessage),
      NewTAF rt s = some t → NewTAF rt t.RAW = some t) := by
  constructor
  · intro rt s m e h
    rw [MetarMessage.RAW, NewMETAR_raw rt s m e h]
    exact h
  · intro rt s t h
    rw [TAFMessage.RAW, NewTAF_raw rt s t h]
    exact h

def c9mRec : MetarMessage :=
  { RawData := "ULLI 270830Z NOSIG"
    Station := "ULLI"
    DateTime := ⟨2023, 5, 27, 8, 30⟩
    NOSIG := true }

def c9tRec : TAFMessage :=
  { RawData := "ULLI 270830Z 2712/2812 CNL"
    Station := "ULLI"
    DateTime := ⟨2023, 5, 27, 8, 30⟩
    ValidFrom := ⟨2023, 5, 27, 12, 0⟩
    ValidTo := ⟨2023, 5, 28, 12, 0⟩
    CNL := true }

theorem c9_witness :
    (NewMETAR testRef "ULLI 270830Z NOSIG" = some (c9mRec, none) ∧
     NewMETAR testRef c9mRec.RAW = some (c9mRec, none)) ∧
    (NewTAF testRef "ULLI 270830Z 2712/2812 CNL" = some c9tRec ∧
     NewTAF testRef c9tRec.RAW = some c9tRec) :=
  ⟨⟨rfl, c9_idempotent.1 testRef "ULLI 270830Z NOSIG" c9mRec none rfl⟩,
   ⟨rfl, c9_idempotent.2 testRef "ULLI 270830Z 2712/2812 CNL" c9tRec rfl⟩⟩

/-! ## TREND preservation and trend-group ordering (towards C7) -/

theorem setTemperature_trend (m : MetarMessage) (tok : String) :
    ((m.setTemperature tok).1).TREND = m.TREND := by
  unfold MetarMessage.setTemperature
  split <;> rfl

theorem setAltimetr_trend (m : MetarMessage) (tok : String) :
    ((m.setAltimetr tok).1).TREND = m.TREND := by
  unfold MetarMessage.setAltimetr
  split
  · rfl
  · split <;> rfl

theorem setVerticalVisibility_trend (m : MetarMessage) (tok : String) :
    ((m.setVerticalVisibility tok).1).TREND = m.TREND := by
  unfold MetarMessage.setVerticalVisibility
  split <;> rfl

theorem appendRunwayVisualRange_trend (m : MetarMessage) (tok : String) :
    ((m.appendRunwayVisualRange tok).1).TREND = m.TREND := by
  unfold MetarMessage.appendRunwayVisualRange
  split <;> rfl

theorem appendRunwayState_trend (m : MetarMessage) (tok : String) :
    ((m.appendRunwayState tok).1).TREND = m.TREND := by
  unfold MetarMessage.appendRunwayState
  split
  · rfl
  · split <;> rfl

theorem mRecentStep_trend (m : MetarMessage) (tok : String) :
    ((mRecentStep m tok).1).TREND = m.TREND := rfl

theorem dwcSlashes_trend (m : MetarMessage) (count : Nat) (tokens : List String) :
    ((dwcSlashes m count tokens).1).TREND = m.TREND := by
  unfold dwcSlashes
  split <;> rfl

theorem metarWC_vis_trend (a : MetarMessage) (toks : List String) :
    ((metarWCOps.parseVisibility a toks).1).TREND = a.TREND := rfl

theorem metarWC_ph_trend (a : MetarMessage) (tok : String) :
    ((metarWCOps.appendPhenomena a tok).1).TREND = a.TREND := rfl

theorem metarWC_cl_trend (a : MetarMessage) (tok : String) :
    ((metarWCOps.appendCloud a tok).1).TREND = a.TREND := rfl

theorem setMetarWeatherCondition_trend (m : MetarMessage) (count : Nat)
    (tokens : List String) :
    ((setMetarWeatherCondition m count tokens).1).TREND = m.TREND := by
  unfold setMetarWeatherCondition
  dsimp only
  rw [wcRepeat_pres MetarMessage.TREND metarWCOps.appendCloud _ tokens _ metarWC_cl_trend]
  rw [dwcVV_pres MetarMessage.TREND metarWCOps _ _ tokens setVerticalVisibility_trend]
  rw [wcRepeat_pres MetarMessage.TREND metarWCOps.appendPhenomena _ tokens _ metarWC_ph_trend]
  rw [dwcSlashes_trend]
  rw [wcRepeat_pres MetarMessage.TREND MetarMessage.appendRunwayVisualRange _ tokens _
    appendRunwayVisualRange_trend]
  rw [dwcVis_pres MetarMessage.TREND metarWCOps m count tokens metarWC_vis_trend]

theorem appendWindShearsLoop_trend (tokens : List String) (fuel : Nat) :
    ∀ (m : MetarMessage) (count : Nat) (ok : Bool) (tu : Nat)
      (r : MetarMessage × Bool × Nat),
      appendWindShearsLoop tokens fuel m count ok tu = some r →
      r.1.TREND = m.TREND := by
  induction fuel with
  | zero => intro m count ok tu r h; cases h
  | succ fuel ih =>
    intro m count ok tu r h
    rw [appendWindShearsLoop] at h
    split at h
    · split at h
      next => cases h; rfl
      next ms hms =>
        split at h
        next =>
          dsimp only at h
          rw [ih _ _ _ _ r h]
        next =>
          split at h
          next =>
            dsimp only at h
            rw [ih _ _ _ _ r h]
          next => cases h
    · cases h

theorem metarStepCavok_trend (m : MetarMessage) (tokens : List String)
    (count : Nat) (tk : String) :
    ((metarStepCavok m tokens count tk).1).TREND = m.TREND := by
  unfold metarStepCavok
  split
  · rfl
  · exact setMetarWeatherCondition_trend m count tokens

theorem metarStepHead_trend (m : MetarMessage) (tokens : List String)
    (count : Nat) (r : MetarMessage × Nat)
    (h : metarStepHead m tokens count = some r) : r.1.TREND = m.TREND := by
  unfold metarStepHead at h
  dsimp only at h
  split at h
  · cases h
  next tk htk =>
    cases h
    exact metarStepCavok_trend _ tokens _ tk

theorem metarStepTemp_trend (m : MetarMessage) (tokens : List String)
    (count : Nat) (r : MetarMessage × Nat)
    (h : metarStepTemp m tokens count = some r) : r.1.TREND = m.TREND := by
  unfold metarStepTemp at h
  split at h
  · cases h
  next tk htk =>
    cases h
    exact setTemperature_trend m tk

theorem metarStepAlt_trend (m : MetarMessage) (tokens : List String)
    (count : Nat) (r : MetarMessage × Nat)
    (h : metarStepAlt m tokens count = some r) : r.1.TREND = m.TREND := by
  unfold metarStepAlt at h
  split at h
  · cases h
  next tk htk =>
    cases h
    exact setAltimetr_trend m tk

theorem metarStepRest_trend (m : MetarMessage) (tokens : List String)
    (count : Nat) (r : MetarMessage × Nat)
    (h : metarStepRest m tokens count = some r) : r.1.TREND = m.TREND := by
  unfold metarStepRest at h
  dsimp only at h
  split at h
  · cases h
  next ws hws =>
    have hws2 := appendWindShearsLoop_trend tokens _ _ _ _ _ ws hws
    have hrp := wcRepeat_pres MetarMessage.TREND mRecentStep m tokens count mRecentStep_trend
    have hrs := wcRepeat_pres MetarMessage.TREND MetarMessage.appendRunwayState ws.1 tokens
      (wsAdvance (wcRepeat mRecentStep m tokens count).2 ws) appendRunwayState_trend
    split at h
    next => cases h; dsimp only; rw [hrs, hws2, hrp]
    next => cases h; rw [hrs, hws2, hrp]

theorem metarStep_trend (m : MetarMessage) (tokens : List String) (count : Nat)
    (r : MetarMessage × Nat) (h : metarStep m tokens count = some r) :
    r.1.TREND = m.TREND := by
  unfold metarStep at h
  rw [Option.bind_eq_some] at h
  obtain ⟨r1, hr1, h⟩ := h
  rw [Option.bind_eq_some] at h
  obtain ⟨r2, hr2, h⟩ := h
  rw [Option.bind_eq_some] at h
  obtain ⟨r3, hr3, h⟩ := h
  rw [metarStepRest_trend r3.1 tokens r3.2 r h,
    metarStepAlt_trend r2.1 tokens r2.2 r3 hr3,
    metarStepTemp_trend r1.1 tokens r1.2 r2 hr2,
    metarStepHead_trend m tokens count r1 hr1]

theorem decodeMetarLoopGo_trend (tokens : List String) (fuel : Nat) :
    ∀ (m m' : MetarMessage) (count : Nat),
      decodeMetarLoopGo tokens fuel m count = some m' →
      m'.TREND = m.TREND := by
  induction fuel with
  | zero => intro m m' count h; cases h
  | succ fuel ih =>
    intro m m' count h
    rw [decodeMetarLoopGo] at h
    split at h
    · split at h
      · cases h
      next r hr =>
        rw [ih r.1 m' r.2 h]
        exact metarStep_trend m tokens count r hr
    · cases h; rfl

theorem decodeMetar_trend (m m' : MetarMessage) (tokens : List String)
    (h : m.decodeMetar tokens = some m') : m'.TREND = m.TREND := by
  unfold MetarMessage.decodeMetar at h
  split at h
  · cases h
  next last hlast =>
    split at h
    · unfold decodeMetarLoop at h
      rw [decodeMetarLoopGo_trend tokens.dropLast _ _ m' 0 h]
    · unfold decodeMetarLoop at h
      exact decodeMetarLoopGo_trend tokens _ m m' 0 h
theorem tafWC_vis_trend (a : TAFMessage) (toks : List String) :
    ((tafWCOps.parseVisibility a toks).1).TREND = a.TREND := rfl

theorem tafWC_ph_trend (a : TAFMessage) (tok : String) :
    ((tafWCOps.appendPhenomena a tok).1).TREND = a.TREND := rfl

theorem tafWC_cl_trend (a : TAFMessage) (tok : String) :
    ((tafWCOps.appendCloud a tok).1).TREND = a.TREND := rfl

theorem tafSetVV_trend (a : TAFMessage) (tok : String) :
    ((a.setVerticalVisibility tok).1).TREND = a.TREND := by
  unfold TAFMessage.setVerticalVisibility
  split
  · rfl
  · split <;> rfl

theorem addTempForecast_trend (rt : RefDate) (a : TAFMessage) (tok : String) :
    ((a.addTempForecast rt tok).1).TREND = a.TREND := by
  unfold TAFMessage.addTempForecast
  split <;> rfl

theorem tafStepCavok_trend (t : TAFMessage) (tokens : List String) (count : Nat)
    (tk : String) : ((tafStepCavok t tokens count tk).1).TREND = t.TREND := by
  unfold tafStepCavok
  split
  · rfl
  · exact decodeWeatherCondition_pres TAFMessage.TREND tafWCOps t count tokens
      tafWC_vis_trend tafWC_ph_trend tafSetVV_trend tafWC_cl_trend

theorem tafStepHead_trend (t : TAFMessage) (tokens : List String) (count : Nat)
    (r : TAFMessage × Nat) (h : tafStepHead t tokens count = some r) :
    r.1.TREND = t.TREND := by
  unfold tafStepHead at h
  split at h
  · cases h
  next tk htk =>
    dsimp only at h
    split at h
    · cases h
    next tk2 htk2 =>
      cases h
      exact tafStepCavok_trend _ tokens _ tk2

theorem tafStepTail_trend (rt : RefDate) (t : TAFMessage) (tokens : List String)
    (count : Nat) : ((tafStepTail rt t tokens count).1).TREND = t.TREND := by
  unfold tafStepTail
  dsimp only
  have hw := wcRepeat_pres TAFMessage.TREND (tafTempStep rt) t tokens count
    (fun a tok => addTempForecast_trend rt a tok)
  split
  · dsimp only
    exact hw
  · exact hw

theorem tafStep_trend (rt : RefDate) (t : TAFMessage) (tokens : List String)
    (count : Nat) (r : TAFMessage × Nat) (h : tafStep rt t tokens count = some r) :
    r.1.TREND = t.TREND := by
  unfold tafStep at h
  rw [Option.map_eq_some'] at h
  obtain ⟨r1, hr1, h⟩ := h
  subst h
  rw [tafStepTail_trend rt r1.1 tokens r1.2]
  exact tafStepHead_trend t tokens count r1 hr1

theorem decodeTAFLoopGo_trend (rt : RefDate) (tokens : List String) (fuel : Nat) :
    ∀ (t t' : TAFMessage) (count : Nat),
      decodeTAFLoopGo rt tokens fuel t count = some t' →
      t'.TREND = t.TREND := by
  induction fuel with
  | zero => intro t t' count h; cases h
  | succ fuel ih =>
    intro t t' count h
    rw [decodeTAFLoopGo] at h
    split at h
    · split at h
      · cases h
      next r hr =>
        rw [ih r.1 t' r.2 h]
        exact tafStep_trend rt t tokens count r hr
    · cases h; rfl

theorem setTimeRange_trend (rt : RefDate) (t t' : TAFMessage)
    (fromStr toStr : String) (h : t.setTimeRange rt fromStr toStr = some t') :
    t'.TREND = t.TREND := by
  unfold TAFMessage.setTimeRange at h
  dsimp only at h
  split at h
  · cases h
  · cases h; rfl


/-- Consecutive message slices determined by a list of start positions
(each slice runs to the next start; the last runs to the boundary `E`). -/
def slicesBetween (tokens : List String) (E : Nat) : List Nat → List (List String)
  | [] => []
  | [p] => [(tokens.take E).drop p]
  | p :: q :: ps => (tokens.take q).drop p :: slicesBetween tokens E (q :: ps)

theorem slicesBetween_length (tokens : List String) (E : Nat) :
    ∀ ps : List Nat, (slicesBetween tokens E ps).length = ps.length
  | [] => rfl
  | [_] => rfl
  | p :: q :: ps => by
    rw [slicesBetween, List.length_cons, slicesBetween_length tokens E (q :: ps)]
    rfl

theorem trendsFold_length (rt : RefDate) :
    ∀ (sl : List (List String)) (l : List Trend),
      trendsFold rt sl = some l → l.length = sl.length
  | [], l, h => by cases h; rfl
  | ts :: rest, l, h => by
    unfold trendsFold at h
    split at h
    · cases h
    · split at h
      · cases h
      next others ho =>
        cases h
        rw [List.length_cons, List.length_cons,
          trendsFold_length rt rest others ho]

theorem metarTrendScan_spec (tokens : List String) (count : Nat) (E : Nat) :
    ∀ (i : Nat) (ps : List Nat), i < ps.headD E →
      List.Chain' (fun a b => a < b) ps → (∀ p ∈ ps, p < E) →
      ∃ ps2, List.Chain' (fun a b => a < b) ps2 ∧ (∀ p ∈ ps2, p < E) ∧
        metarTrendScan tokens count i (ps.headD E) (slicesBetween tokens E ps) =
          (ps2.headD E, slicesBetween tokens E ps2)
  | 0, ps, _, hc, hE => ⟨ps, hc, hE, rfl⟩
  | i + 1, ps, hlt, hc, hE => by
    rw [metarTrendScan]
    split
    · exact ⟨ps, hc, hE, rfl⟩
    · split
      · have h1 : i + 1 < E := by
          cases ps with
          | nil => exact hlt
          | cons p rest => exact lt_trans hlt (hE p (List.mem_cons_self p rest))
        have hc2 : List.Chain' (fun a b => a < b) ((i + 1) :: ps) := by
          cases ps with
          | nil => exact List.chain'_singleton _
          | cons p rest => exact List.chain'_cons.mpr ⟨hlt, hc⟩
        have hE2 : ∀ p ∈ (i + 1) :: ps, p < E := by
          intro p hp
          rcases List.mem_cons.mp hp with h | h
          · exact h ▸ h1
          · exact hE p h
        have hsl : ((tokens.take (ps.headD E)).drop (i + 1)) ::
            slicesBetween tokens E ps = slicesBetween tokens E ((i + 1) :: ps) := by
          cases ps <;> rfl
        rw [hsl]
        exact metarTrendScan_spec tokens count E i ((i + 1) :: ps)
          (Nat.lt_succ_self i) hc2 hE2
      · exact metarTrendScan_spec tokens count E i ps
          (lt_trans (Nat.lt_succ_self i) hlt) hc hE

theorem tafTrendScan_spec (tokens : List String) (sp : Nat) :
    ∀ (i : Nat) (E : Nat) (ps : List Nat), i < ps.headD E →
      List.Chain' (fun a b => a < b) ps → (∀ p ∈ ps, p < E) →
      ∃ (ps2 : List Nat) (E2 : Nat),
        List.Chain' (fun a b => a < b) ps2 ∧ (∀ p ∈ ps2, p < E2) ∧
        tafTrendScan tokens sp i (ps.headD E) (slicesBetween tokens E ps) =
          (ps2.headD E2, slicesBetween tokens E2 ps2)
  | 0, E, ps, _, hc, hE => ⟨ps, E, hc, hE, rfl⟩
  | i + 1, E, ps, hlt, hc, hE => by
    rw [tafTrendScan]
    split
    · exact ⟨ps, E, hc, hE, rfl⟩
    · dsimp only
      split
      next hmk =>
        split
        next hprob =>
          -- PROB immediately before the marker: the slice starts at i
          have hnrmk : ¬(tokens.getD i "" = "RMK") := by
            intro he
            rw [he] at hprob
            exact absurd hprob (by decide)
          rw [if_neg hnrmk]
          have h0 : i < ps.headD E := lt_trans (Nat.lt_succ_self i) hlt
          have h1 : i < E := by
            cases ps with
            | nil => exact h0
            | cons p rest => exact lt_trans h0 (hE p (List.mem_cons_self p rest))
          have hc2 : List.Chain' (fun a b => a < b) (i :: ps) := by
            cases ps with
            | nil => exact List.chain'_singleton _
            | cons p rest => exact List.chain'_cons.mpr ⟨h0, hc⟩
          have hE2 : ∀ p ∈ i :: ps, p < E := by
            intro p hp
            rcases List.mem_cons.mp hp with h | h
            · exact h ▸ h1
            · exact hE p h
          have hsl : ((tokens.take (ps.headD E)).drop i) ::
              slicesBetween tokens E ps = slicesBetween tokens E (i :: ps) := by
            cases ps <;> rfl
          rw [hsl]
          cases i with
          | zero => exact ⟨0 :: ps, E, hc2, hE2, rfl⟩
          | succ j =>
            exact tafTrendScan_spec tokens sp j E ((j + 1) :: ps)
              (Nat.lt_succ_self j) hc2 hE2
        next =>
          -- marker with no preceding PROB: the slice starts at i + 1
          have hnrmk : ¬(tokens.getD (i + 1) "" = "RMK") := by
            intro he
            rw [he] at hmk
            rcases hmk with h | h | h | h
            · exact absurd h (by decide)
            · exact absurd h (by decide)
            · exact absurd h (by decide)
            · exact absurd h (by decide)
          rw [if_neg hnrmk]
          have h1 : i + 1 < E := by
            cases ps with
            | nil => exact hlt
            | cons p rest => exact lt_trans hlt (hE p (List.mem_cons_self p rest))
          have hc2 : List.Chain' (fun a b => a < b) ((i + 1) :: ps) := by
            cases ps with
            | nil => exact List.chain'_singleton _
            | cons p rest => exact List.chain'_cons.mpr ⟨hlt, hc⟩
          have hE2 : ∀ p ∈ (i + 1) :: ps, p < E := by
            intro p hp
            rcases List.mem_cons.mp hp with h | h
            · exact h ▸ h1
            · exact hE p h
          have hsl : ((tokens.take (ps.headD E)).drop (i + 1)) ::
              slicesBetween tokens E ps = slicesBetween tokens E ((i + 1) :: ps) := by
            cases ps <;> rfl
          rw [hsl]
          exact tafTrendScan_spec tokens sp i E ((i + 1) :: ps)
            (Nat.lt_succ_self i) hc2 hE2
      next =>
        -- not a marker: an RMK token resets the collected groups
        split
        next =>
          have := tafTrendScan_spec tokens sp i (ps.headD E) []
            (lt_trans (Nat.lt_succ_self i) hlt) List.chain'_nil (by intro p hp; cases hp)
          simpa using this
        next =>
          exact tafTrendScan_spec tokens sp i E ps
            (lt_trans (Nat.lt_succ_self i) hlt) hc hE

/-- The header-token count skipped by `NewMETAR` (nonempty header captures). -/
def metarCount (s : String) : Nat :=
  ((metarHeaderMap s).filter (fun p => p.2 ≠ "")).length

/-- The RMK scan of `NewMETAR` over the message's tokens. -/
def metarRmk (s : String) : Nat × List String :=
  rmkScan (splitSpace s) (metarCount s) ((splitSpace s).length - 1)
    (splitSpace s).length []

/-- The trend scan of `NewMETAR`: body boundary and collected trend slices. -/
def metarTrendSlices (s : String) : Nat × List (List String) :=
  metarTrendScan (splitSpace s) (metarCount s) ((metarRmk s).1 - 1)
    (metarRmk s).1 []

/-- The header-token count skipped by `NewTAF` (nonempty captures, the
DDhh/DDhh window counted once). -/
def tafPosition (s : String) : Nat :=
  ((tafHeaderMap s).filter (fun p => p.2 ≠ "" ∧ p.1 ≠ "to")).length

/-- The trend scan run by `NewTAF` through `findTrendsInMessage`. -/
def tafTrendSlices (s : String) : Nat × List (List String) :=
  tafTrendScan (splitSpace s) (tafPosition s) ((splitSpace s).length - 1)
    (splitSpace s).length []

theorem NewMETAR_TREND (rt : RefDate) (s : String) (m : MetarMessage)
    (h : NewMETAR rt s = some (m, none)) (hnil : m.NIL = false) :
    ∃ tl, trendsFold rt (metarTrendSlices s).2 = some tl ∧ m.TREND = tl := by
  unfold NewMETAR at h
  dsimp only at h
  split at h
  · simp at h
  · split at h
    next hN =>
      rw [Option.some.injEq, Prod.mk.injEq] at h
      obtain ⟨hm, -⟩ := h
      rw [← hm] at hnil
      exact absurd (hN.symm.trans hnil) (by decide)
    · split at h
      · cases h
      next trendList htl =>
        split at h
        · cases h
        next rmks hrm =>
          split at h
          · cases h
          next m2 hm2 =>
            rw [Option.some.injEq, Prod.mk.injEq] at h
            obtain ⟨hm, -⟩ := h
            refine ⟨trendList, ?_, ?_⟩
            · unfold metarTrendSlices metarRmk metarCount
              exact htl
            · rw [← hm]
              exact (decodeMetar_trend _ m2 _ hm2).trans rfl

theorem NewTAF_TREND (rt : RefDate) (s : String) (t : TAFMessage)
    (h : NewTAF rt s = some t)
    (hv : ¬(t.Station = "" ∧ t.DateTime.isZero))
    (hnil : t.NIL = false) (hcnl : t.CNL = false) :
    ∃ tl, trendsFold rt (tafTrendSlices s).2 = some tl ∧ t.TREND = tl := by
  unfold NewTAF at h
  dsimp only at h
  split at h
  next hbad =>
    rw [Option.some.injEq] at h
    rw [← h] at hv
    exact absurd hbad hv
  · split at h
    next hN =>
      rw [Option.some.injEq] at h
      rw [← h] at hnil
      exact absurd (hN.symm.trans hnil) (by decide)
    · split at h
      · cases h
      next t1 ht1 =>
        split at h
        next hC =>
          rw [Option.some.injEq] at h
          rw [← h] at hcnl
          exact absurd (hC.symm.trans hcnl) (by decide)
        · try dsimp only at h
          split at h
          · cases h
          next te hte =>
            split at h
            · unfold TAFMessage.findTrendsInMessage at hte
              dsimp only at hte
              split at hte
              · cases hte
              next trendList htf =>
                rw [Option.some.injEq] at hte
                rw [← hte] at h
                dsimp only at h
                unfold TAFMessage.decodeTAF decodeTAFLoop at h
                have hrd : t1.RawData = s :=
                  (setTimeRange_raw rt _ t1 _ _ ht1).trans rfl
                refine ⟨trendList, ?_, ?_⟩
                · rw [hrd] at htf
                  unfold tafTrendSlices tafPosition
                  exact htf
                · rw [decodeTAFLoopGo_trend rt _ _ _ t _ h]
                  dsimp only
                  rw [setTimeRange_trend rt _ t1 _ _ ht1]
                  rfl
            · cases h

theorem metarTrendSlices_spec (s : String) :
    ∃ (ps : List Nat) (E : Nat),
      List.Chain' (fun a b => a < b) ps ∧ (∀ p ∈ ps, p < E) ∧
      (metarTrendSlices s).2 = slicesBetween (splitSpace s) E ps := by
  unfold metarTrendSlices
  cases hb : (metarRmk s).1 with
  | zero =>
    refine ⟨[], 0, List.chain'_nil, ?_, ?_⟩
    · intro p hp
      cases hp
    · rfl
  | succ k =>
    obtain ⟨ps2, hch, hpE, heq⟩ := metarTrendScan_spec (splitSpace s)
      (metarCount s) (k + 1) k [] (Nat.lt_succ_self k) List.chain'_nil
      (by intro p hp; cases hp)
    exact ⟨ps2, k + 1, hch, hpE, congrArg Prod.snd heq⟩

theorem tafTrendSlices_spec (s : String) :
    ∃ (ps : List Nat) (E : Nat),
      List.Chain' (fun a b => a < b) ps ∧ (∀ p ∈ ps, p < E) ∧
      (tafTrendSlices s).2 = slicesBetween (splitSpace s) E ps := by
  unfold tafTrendSlices
  cases hb : (splitSpace s).length with
  | zero =>
    refine ⟨[], 0, List.chain'_nil, ?_, ?_⟩
    · intro p hp
      cases hp
    · rfl
  | succ k =>
    obtain ⟨ps2, E2, hch, hpE, heq⟩ := tafTrendScan_spec (splitSpace s)
      (tafPosition s) k (k + 1) [] (Nat.lt_succ_self k) List.chain'_nil
      (by intro p hp; cases hp)
    exact ⟨ps2, E2, hch, hpE, congrArg Prod.snd heq⟩

/-- Every entry of a successful `trendsFold` is the decode of the slice at
the same index: the k-th Trend comes from the k-th slice. -/
theorem trendsFold_getD (rt : RefDate) :
    ∀ (sl : List (List String)) (l : List Trend),
      trendsFold rt sl = some l → ∀ k, k < sl.length →
      ∃ r, parseTrendData rt (sl.getD k []) = some r ∧ l.getD k {} = r.1
  | [], _, _, _, hk => absurd hk (by simp)
  | ts :: rest, l, h, k, hk => by
    unfold trendsFold at h
    split at h
    · cases h
    next r hr =>
      split at h
      · cases h
      next others ho =>
        cases h
        cases k with
        | zero => exact ⟨r, hr, rfl⟩
        | succ k =>
          exact trendsFold_getD rt rest others ho k
            (by rw [List.length_cons] at hk; omega)

/-- C7: for every decoded message (METAR through `NewMETAR`, TAF through
`NewTAF`), the trend list holds exactly one `Trend` per detected trend
group, in left-to-right message order, although both splitters scan right
to left: the collected slices are consecutive message segments whose start
positions strictly increase, the trend list is exactly the in-order decode
of that slice list (`trendsFold`), and the k-th Trend of the message is
the decode of the k-th slice. -/
theorem c7_trend_groups_ordered :
    (∀ (rt : RefDate) (s : String) (m : MetarMessage),
      NewMETAR rt s = some (m, none) → m.NIL = false →
      ∃ (ps : List Nat) (E : Nat),
        List.Chain' (fun a b => a < b) ps ∧ (∀ p ∈ ps, p < E) ∧
        (metarTrendSlices s).2 = slicesBetween (splitSpace s) E ps ∧
        trendsFold rt (metarTrendSlices s).2 = some m.TREND ∧
        m.TREND.length = ps.length ∧
        (∀ k, k < ps.length → ∃ r,
          parseTrendData rt ((metarTrendSlices s).2.getD k []) = some r ∧
          m.TREND.getD k {} = r.1)) ∧
    (∀ (rt : RefDate) (s : String) (t : TAFMessage),
      NewTAF rt s = some t → ¬(t.Station = "" ∧ t.DateTime.isZero) →
      t.NIL = false → t.CNL = false →
      ∃ (ps : List Nat) (E : Nat),
        List.Chain' (fun a b => a < b) ps ∧ (∀ p ∈ ps, p < E) ∧
        (tafTrendSlices s).2 = slicesBetween (splitSpace s) E ps ∧
        trendsFold rt (tafTrendSlices s).2 = some t.TREND ∧
        t.TREND.length = ps.length ∧
        (∀ k, k < ps.length → ∃ r,
          parseTrendData rt ((tafTrendSlices s).2.getD k []) = some r ∧
          t.TREND.getD k {} = r.1)) := by
  constructor
  · intro rt s m h hnil
    obtain ⟨tl, htl, htr⟩ := NewMETAR_TREND rt s m h hnil
    obtain ⟨ps, E, hch, hpE, heq⟩ := metarTrendSlices_spec s
    have hlen : (metarTrendSlices s).2.length = ps.length := by
      rw [heq, slicesBetween_length (splitSpace s) E ps]
    refine ⟨ps, E, hch, hpE, heq, by rw [htr]; exact htl, ?_, ?_⟩
    · rw [htr, trendsFold_length rt _ tl htl, hlen]
    · intro k hk
      obtain ⟨r, hr, hg⟩ := trendsFold_getD rt _ tl htl k (by rw [hlen]; exact hk)
      exact ⟨r, hr, by rw [htr]; exact hg⟩
  · intro rt s t h hv hnil hcnl
    obtain ⟨tl, htl, htr⟩ := NewTAF_TREND rt s t h hv hnil hcnl
    obtain ⟨ps, E, hch, hpE, heq⟩ := tafTrendSlices_spec s
    have hlen : (tafTrendSlices s).2.length = ps.length := by
      rw [heq, slicesBetween_length (splitSpace s) E ps]
    refine ⟨ps, E, hch, hpE, heq, by rw [htr]; exact htl, ?_, ?_⟩
    · rw [htr, trendsFold_length rt _ tl htl, hlen]
    · intro k hk
      obtain ⟨r, hr, hg⟩ := trendsFold_getD rt _ tl htl k (by rw [hlen]; exact hk)
      exact ⟨r, hr, by rw [htr]; exact hg⟩

def c7mStr : String :=
  "ULLI 270830Z 31005MPS 9999 BKN020 05/M02 Q1010 TEMPO 0500 FG"

def c7tStr : String :=
  "ULLI 270830Z 2712/2812 31005MPS 9999 BKN020 TEMPO 2712/2713 0500 FG"

def c7m : MetarMessage := ((NewMETAR testRef c7mStr).getD ({}, none)).1

def c7t : TAFMessage := (NewTAF testRef c7tStr).getD {}

theorem c7_witness :
    (∃ (ps : List Nat) (E : Nat),
      List.Chain' (fun a b => a < b) ps ∧ (∀ p ∈ ps, p < E) ∧
      (metarTrendSlices c7mStr).2 = slicesBetween (splitSpace c7mStr) E ps ∧
      trendsFold testRef (metarTrendSlices c7mStr).2 = some c7m.TREND ∧
      c7m.TREND.length = ps.length ∧
      (∀ k, k < ps.length → ∃ r,
        parseTrendData testRef ((metarTrendSlices c7mStr).2.getD k []) = some r ∧
        c7m.TREND.getD k {} = r.1)) ∧
    (∃ (ps : List Nat) (E : Nat),
      List.Chain' (fun a b => a < b) ps ∧ (∀ p ∈ ps, p < E) ∧
      (tafTrendSlices c7tStr).2 = slicesBetween (splitSpace c7tStr) E ps ∧
      trendsFold testRef (tafTrendSlices c7tStr).2 = some c7t.TREND ∧
      c7t.TREND.length = ps.length ∧
      (∀ k, k < ps.length → ∃ r,
        parseTrendData testRef ((tafTrendSlices c7tStr).2.getD k []) = some r ∧
        c7t.TREND.getD k {} = r.1)) :=
  ⟨c7_trend_groups_ordered.1 testRef c7mStr c7m rfl rfl,
   c7_trend_groups_ordered.2 testRef c7tStr c7t rfl
     (by decide) rfl rfl⟩
